import Mathlib

/-!
Verification development for the IRCTC PDF ticket extractor
(`src/pdf-extractor.py`).  The Python source is shallowly embedded:
each method of `EnhancedIRCTCTicketExtractor` becomes a Lean definition
with the same name, lines of text become `String`s, Python `None` becomes
`Option`, Python exceptions become `Except String`, and Python floats are
modelled by `ℚ` (every numeric constant the program compares or returns —
scores such as 85.0, the 1.0 payment tolerance, rupee amounts with two
decimals — is exactly representable, and a comment marks each spot where
binary-float rounding could in principle deviate).

The file has three parts: character/string utilities that mirror the
Python string methods and the concrete regular expressions used by the
source, the embedded extractor itself, and the theorems settling the
specification claims.
-/

/-! ## Character and string utilities (Python semantics) -/

/-- Python `\s` inside the used regexes and `str.strip()`/`str.split()`:
the ASCII whitespace characters (the ticket lines are ASCII). -/
def py_ws (c : Char) : Bool :=
  c = ' ' || c = '\t' || c = '\n' || c = '\r' || c = '\x0b' || c = '\x0c'

/-- Python regex `\w` (ASCII range), used for the `\b` word boundaries. -/
def py_word_char (c : Char) : Bool :=
  c.isAlphanum || c = '_'

/-- Drop leading ASCII whitespace. -/
def drop_leading_ws (l : List Char) : List Char := l.dropWhile py_ws

/-- Drop trailing ASCII whitespace. -/
def drop_trailing_ws (l : List Char) : List Char :=
  (l.reverse.dropWhile py_ws).reverse

/-- Python `str.strip()`. -/
def py_strip (s : String) : String :=
  String.mk (drop_trailing_ws (drop_leading_ws s.toList))

/-- Python `str.upper()` (ASCII). -/
def py_upper (s : String) : String := String.mk (s.toList.map Char.toUpper)

/-- Python `str.lower()` (ASCII). -/
def py_lower (s : String) : String := String.mk (s.toList.map Char.toLower)

/-- `needle` occurs at the start of `hay`. -/
def starts_with_chars : List Char → List Char → Bool
  | _, [] => true
  | [], _ :: _ => false
  | c :: cs, d :: ds => c == d && starts_with_chars cs ds

/-- Python `needle in hay` substring test. -/
def contains_chars (needle : List Char) : List Char → Bool
  | [] => needle.isEmpty
  | hay@(_ :: t) => starts_with_chars hay needle || contains_chars needle t

/-- Python `sub in s` on strings. -/
def str_contains (hay sub : String) : Bool := contains_chars sub.toList hay.toList

/-- Python `s.startswith(pre)`. -/
def py_startswith (s pre : String) : Bool := starts_with_chars s.toList pre.toList

/-- Python `any(w in s for w in ws)`. -/
def contains_any (hay : String) (ws : List String) : Bool :=
  ws.any (fun w => str_contains hay w)

/-- Python `str.split()` with no argument: split on whitespace runs,
producing no empty words.  Structural recursion on a fuel that starts at
the list length: each step consumes at least one character, so the fuel
never runs out before the text does. -/
def py_split_ws_go : Nat → List Char → List String
  | 0, _ => []
  | fuel + 1, l =>
    match l.dropWhile py_ws with
    | [] => []
    | c :: t =>
      let w := c :: t.takeWhile (fun d => ¬ py_ws d)
      String.mk w ::
        py_split_ws_go fuel (t.drop (t.takeWhile (fun d => ¬ py_ws d)).length)

def py_split_ws_chars (l : List Char) : List String := py_split_ws_go l.length l

/-- Python `str.split()` on a `String`. -/
def py_split_ws (s : String) : List String := py_split_ws_chars s.toList

/-- Numeric value of a digit run (`int(...)` on a decimal literal). -/
def nat_of_digits (l : List Char) : Nat :=
  l.foldl (fun acc c => 10 * acc + (c.toNat - '0'.toNat)) 0

/-- Python `str.isupper()`: at least one cased character and no lowercase
cased character (ASCII). -/
def py_isupper (s : String) : Bool :=
  s.toList.any (fun c => c.isAlpha) && s.toList.all (fun c => ¬ c.isLower)

/-- Python `str.isalpha()`: nonempty and all alphabetic (ASCII). -/
def py_isalpha (s : String) : Bool :=
  ¬ s.isEmpty && s.toList.all Char.isAlpha

/-- Python `str.isdigit()` (ASCII decimal digits; the source only feeds it
candidate PNR / train-number tokens). -/
def py_isdigit (s : String) : Bool :=
  ¬ s.isEmpty && s.toList.all Char.isDigit

/-- `lines[i]` where the source has already established `i < len(lines)`. -/
def line_at (lines : List String) (i : Nat) : String := lines.getD i ""

/-- `re.search`: try a matcher at every start position, leftmost match
first.  All matchers used here fail on the empty suffix, so trying it is
harmless. -/
def scan_first {α : Type} (f : List Char → Option α) : List Char → Option α
  | [] => f []
  | l@(_ :: t) =>
    match f l with
    | some a => some a
    | none => scan_first f t

/-! ## The concrete regular expressions of the source

Each Python regex used by the extractor is implemented as a character
level matcher.  The character classes that follow each greedy repetition
are disjoint from the repeated class in every pattern below (digits vs
whitespace vs punctuation), so greedy matching without backtracking
computes exactly the regex match; the one exception (`\s*(.+)$` in the
numbered-name pattern) is handled explicitly where it is embedded. -/

/-- `\d{10}` at the current position (`re.search(r'(\d{10})', ...)` step). -/
def ten_digits_here (l : List Char) : Option String :=
  let p := l.take 10
  if p.length = 10 && p.all Char.isDigit then some (String.mk p) else none

/-- `re.search(r'(\d{10})', s)`: leftmost run of 10 digits. -/
def find_ten_digits (l : List Char) : Option String := scan_first ten_digits_here l

/-- `\b(\d{10})\b` at a position, given the previous character. -/
def ten_digits_bounded_here (prev : Option Char) (l : List Char) : Option String :=
  let p := l.take 10
  let prev_ok := match prev with
    | some c => ¬ py_word_char c
    | none => true
  let next_ok := match l.drop 10 with
    | c :: _ => ¬ py_word_char c
    | [] => true
  if p.length = 10 && p.all Char.isDigit && prev_ok && next_ok then
    some (String.mk p)
  else none

/-- `re.search(r'\b(\d{10})\b', s)`. -/
def find_ten_digits_bounded (l : List Char) : Option String :=
  go none l
where
  go : Option Char → List Char → Option String
    | prev, [] => ten_digits_bounded_here prev []
    | prev, l@(c :: t) =>
      match ten_digits_bounded_here prev l with
      | some s => some s
      | none => go (some c) t

/-- Literal + `\s*` + `\d{10}` at the current position;
used for `PNR:\s*(\d{10})` and `PNR\s*(\d{10})`. -/
def literal_ws_ten_digits_here (lit : List Char) (l : List Char) : Option String :=
  if starts_with_chars l lit then
    ten_digits_here ((l.drop lit.length).dropWhile py_ws)
  else none

/-- `re.search(r'PNR:\s*(\d{10})', s)`. -/
def search_pnr_colon (s : String) : Option String :=
  scan_first (literal_ws_ten_digits_here "PNR:".toList) s.toList

/-- `re.search(r'PNR\s*(\d{10})', s)`. -/
def search_pnr_plain (s : String) : Option String :=
  scan_first (literal_ws_ten_digits_here "PNR".toList) s.toList

/-- `Transaction ID:\s*(\d+)` at the current position. -/
def transaction_id_here (l : List Char) : Option String :=
  if starts_with_chars l "Transaction ID:".toList then
    let r := (l.drop "Transaction ID:".toList.length).dropWhile py_ws
    let ds := r.takeWhile Char.isDigit
    if ds.isEmpty then none else some (String.mk ds)
  else none

/-- `re.search(r'Transaction ID:\s*(\d+)', s)`. -/
def search_transaction_id (s : String) : Option String :=
  scan_first transaction_id_here s.toList

/-- Exactly `n` digits at the head, returning them and the rest. -/
def take_digits_exact (n : Nat) (l : List Char) : Option (List Char × List Char) :=
  let p := l.take n
  if p.length = n && p.all Char.isDigit then some (p, l.drop n) else none

/-- `(\d{2}-\d{2}-\d{4}\s+\d{2}:\d{2}:\d{2})` at the current position,
returning the matched text. -/
def date_time_here (l : List Char) : Option String := do
  let (d1, r1) ← take_digits_exact 2 l
  let r2 ← match r1 with | '-' :: t => some t | _ => none
  let (d2, r3) ← take_digits_exact 2 r2
  let r4 ← match r3 with | '-' :: t => some t | _ => none
  let (d3, r5) ← take_digits_exact 4 r4
  let wsr := r5.takeWhile py_ws
  if wsr.isEmpty then none else do
  let r6 := r5.drop wsr.length
  let (t1, r7) ← take_digits_exact 2 r6
  let r8 ← match r7 with | ':' :: t => some t | _ => none
  let (t2, r9) ← take_digits_exact 2 r8
  let r10 ← match r9 with | ':' :: t => some t | _ => none
  let (t3, _) ← take_digits_exact 2 r10
  some (String.mk (d1 ++ '-' :: d2 ++ '-' :: d3 ++ wsr ++ t1 ++ ':' :: t2 ++ ':' :: t3))

/-- `re.search(r'(\d{2}-\d{2}-\d{4}\s+\d{2}:\d{2}:\d{2})', s)`. -/
def find_date_time (s : String) : Option String := scan_first date_time_here s.toList

/-- `(\d+)\s*-(.+)` at the current position: digit run, optional
whitespace, a dash, then at least one further character (captured to the
end of the line). -/
def train_info_here (l : List Char) : Option (String × String) :=
  let ds := l.takeWhile Char.isDigit
  if ds.isEmpty then none
  else
    match (l.drop ds.length).dropWhile py_ws with
    | '-' :: rest => if rest.isEmpty then none else some (String.mk ds, String.mk rest)
    | _ => none

/-- `re.search(r'(\d+)\s*-(.+)', s)`. -/
def find_train_info (s : String) : Option (String × String) :=
  scan_first train_info_here s.toList

/-- `(\d+)\s*KM` at the current position. -/
def distance_here (l : List Char) : Option Nat :=
  let ds := l.takeWhile Char.isDigit
  if ds.isEmpty then none
  else if starts_with_chars ((l.drop ds.length).dropWhile py_ws) "KM".toList then
    some (nat_of_digits ds)
  else none

/-- `re.search(r'(\d+)\s*KM', s)`. -/
def find_distance (s : String) : Option Nat := scan_first distance_here s.toList

/-- `re.search(r'^([A-Z][A-Z\s]+?)\s*\(([A-Z-]+)\)$', s)` (and the
destination variant with `([A-Z-]*)` when `allow_empty_code` is true).
Because `(` belongs to neither `[A-Z\s]` nor `\s`, the literal `(` of the
pattern can only match the first `(` of the line; the lazy group together
with the caller's `.strip()` then yields the text before it with trailing
whitespace removed, which is what this matcher returns as the name. -/
def match_station_line (allow_empty_code : Bool) (s : String) : Option (String × String) :=
  let l := s.toList
  match l with
  | [] => none
  | c0 :: _ =>
    if ¬ c0.isUpper then none
    else
      match l.findIdx? (· == '(') with
      | none => none
      | some j =>
        if j < 2 then none
        else
          let mid := (l.take j).drop 1
          if ¬ mid.all (fun c => c.isUpper || py_ws c) then none
          else if l.getLast? ≠ some ')' then none
          else
            let code := (l.drop (j + 1)).dropLast
            if code.all (fun c => c.isUpper || c == '-') &&
                (allow_empty_code || ¬ code.isEmpty) then
              some (String.mk (drop_trailing_ws (l.take j)), String.mk code)
            else none

/-- `re.match(r'^(\d+)\.\s*(.+)$', s)`: anchored at the start; returns the
serial number and the raw second capture group.  After the greedy `\s*`,
`(.+)$` needs at least one character; when the text after the dot is all
whitespace the engine backtracks `\s*` by exactly one character, so the
group is the final whitespace character of the line. -/
def numbered_name_here (s : String) : Option (Nat × String) :=
  let l := s.toList
  let ds := l.takeWhile Char.isDigit
  if ds.isEmpty then none
  else
    match l.drop ds.length with
    | '.' :: rest =>
      if rest.isEmpty then none
      else
        let tail := rest.dropWhile py_ws
        if tail.isEmpty then
          some (nat_of_digits ds, String.mk [rest.getLastD ' '])
        else
          some (nat_of_digits ds, String.mk tail)
    | _ => none

/-- `re.match(r'^\d+(\.\d+)?$', s)`: a plain decimal number. -/
def decimal_number_match (s : String) : Bool :=
  let l := s.toList
  let ds := l.takeWhile Char.isDigit
  if ds.isEmpty then false
  else
    match l.drop ds.length with
    | [] => true
    | '.' :: fs => ¬ fs.isEmpty && fs.all Char.isDigit
    | _ => false

/-- `re.match(r'^[A-Z][A-Z\s]*$', s)`: uppercase letters and spaces,
starting with a letter. -/
def upper_name_match (s : String) : Bool :=
  match s.toList with
  | [] => false
  | c :: t => c.isUpper && t.all (fun d => d.isUpper || py_ws d)

/-- `re.match(r'^\d{1,3}$', s)`: one to three digits making up the whole
line, returning their value. -/
def age_line_match (s : String) : Option Nat :=
  let l := s.toList
  if 1 ≤ l.length && l.length ≤ 3 && l.all Char.isDigit then
    some (nat_of_digits l)
  else none

/-- `[\d,]+\.?\d*` at the current position, returning the matched text. -/
def amount_here (l : List Char) : Option (List Char) :=
  let g1 := l.takeWhile (fun c => c.isDigit || c == ',')
  if g1.isEmpty then none
  else
    match l.drop g1.length with
    | '.' :: r2 => some (g1 ++ '.' :: r2.takeWhile Char.isDigit)
    | _ => some g1

/-- `re.search(r'[\d,]+\.?\d*', s)`. -/
def find_amount (s : String) : Option (List Char) := scan_first amount_here s.toList

/-- `re.search(r'^[\d,]+\.?\d*$', s)`: the whole line is one amount token.
The greedy matcher at position 0 consumes the maximal such token, so the
anchored regex matches exactly when that token is the whole line. -/
def full_line_amount (s : String) : Option (List Char) :=
  match amount_here s.toList with
  | some m => if m.length = s.toList.length then some m else none
  | none => none

/-- Python `float(...)` on a comma-stripped amount token (digits with at
most one dot): `ValueError` becomes `none`.  The value is exact as a
rational; Python stores the nearest binary double, which agrees on every
comparison the program performs with the amounts of two decimal places. -/
def parse_py_float (s : String) : Option ℚ :=
  let l := s.toList
  let ip := l.takeWhile Char.isDigit
  match l.drop ip.length with
  | [] => if ip.isEmpty then none else some ((nat_of_digits ip : ℚ))
  | '.' :: fp =>
    if fp.all Char.isDigit && (¬ ip.isEmpty || ¬ fp.isEmpty) then
      some ((nat_of_digits ip : ℚ) + (nat_of_digits fp : ℚ) / (10 : ℚ) ^ fp.length)
    else none
  | _ => none

/-! ## Data model

Structures mirroring the dictionaries the extractor builds.  An `Option`
field is `none` when the Python dict holds `None` (or, where noted, when
the key is absent). -/

/-- Truthiness of a Python string-or-None value. -/
def opt_str_truthy (o : Option String) : Bool :=
  match o with
  | some s => ¬ s.isEmpty
  | none => false

structure StationInfo where
  station_name : Option String := none
  station : Option String := none
  datetime : Option String := none
deriving DecidableEq, Repr

/-- Truthiness of the `station_info` dict: any key present. -/
def station_info_nonempty (si : StationInfo) : Bool :=
  si.station_name.isSome || si.station.isSome || si.datetime.isSome

structure Journey where
  train_number : Option String := none
  train_name : Option String := none
  class_type : Option String := none   -- models journey['class']; `class` is a Lean keyword
  quota : Option String := none
  distance_km : Option Nat := none
  boarding : Option StationInfo := none      -- `none` models the initial empty dict {}
  destination : Option StationInfo := none
deriving DecidableEq, Repr

/-- `any(journey.values())`: Python truthiness of each stored value
(`None`, `''`, `0` and `{}` are falsy). -/
def journey_truthy (j : Journey) : Bool :=
  opt_str_truthy j.train_number || opt_str_truthy j.train_name ||
  opt_str_truthy j.class_type || opt_str_truthy j.quota ||
  (match j.distance_km with | some d => d ≠ 0 | none => false) ||
  j.boarding.isSome || j.destination.isSome

structure PassengerDetail where
  age : Nat
  gender : Option String
  food_choice : Option String
  booking_status : Option String
  current_status : Option String
deriving DecidableEq, Repr

structure Profile where
  name : String
  age : Nat
  gender : Option String
  confidence_score : ℚ
deriving DecidableEq, Repr

structure Passenger where
  sno : Nat
  name : String
  age : Option Nat := none
  gender : Option String := none
  food_choice : Option String := none
  booking_status : Option String := none
  current_status : Option String := none
  -- Enrichment keys added by enhance_passenger_data (absent until then).
  passenger_key : Option String := none
  profile_data : Option Profile := none
  fare_per_passenger : Option ℚ := none
  gender_inferred : Option Bool := none
  age_category : Option String := none
  is_senior : Option Bool := none
  is_child : Option Bool := none
deriving DecidableEq, Repr

structure Payment where
  ticket_fare : Option ℚ := none
  irctc_fee : Option ℚ := none
  insurance : Option ℚ := none
  agent_fee : Option ℚ := none
  pg_charges : Option ℚ := none
  total : Option ℚ := none
deriving DecidableEq, Repr

/-! ## Field locators -/

/-- First loop of `extract_pnr`: lines carrying a PNR label, trying the
three patterns on the line and then a bounded 10-digit search on the
stripped next line; the scan continues past a label line where all four
attempts fail. -/
def pnr_label_scan (lines : List String) : Option String :=
  lines.enum.findSome? (fun p =>
    if str_contains p.2 "PNR:" || str_contains p.2 "PNR " then
      match search_pnr_colon p.2 with
      | some v => some v
      | none =>
        match search_pnr_plain p.2 with
        | some v => some v
        | none =>
          match find_ten_digits p.2.toList with
          | some v => some v
          | none =>
            if p.1 + 1 < lines.length then
              find_ten_digits_bounded (py_strip (line_at lines (p.1 + 1))).toList
            else none
    else none)

/-- Fallback loop of `extract_pnr`: standalone 10-digit tokens on lines
without contact/phone context, rejected when the token starts with 0, 8
or 9 or the line sits in the second half of the document.
`lines.index(line)` is the index of the first line equal to the current
one, and `index / len < 0.5` is exactly `2 * index < len` (the quotient
of such small integers rounds to a double on the same side of 0.5). -/
def pnr_fallback_scan (lines : List String) : Option String :=
  lines.findSome? (fun line =>
    if contains_any (py_lower line) ["mobile", "phone", "contact", "sms", "call"] then none
    else
      match find_ten_digits_bounded line.toList with
      | some potential_pnr =>
        if ¬ (py_startswith potential_pnr "0" || py_startswith potential_pnr "8" ||
              py_startswith potential_pnr "9") &&
            2 * lines.indexOf line < lines.length then
          some potential_pnr
        else none
      | none => none)

/-- `extract_pnr`. -/
def extract_pnr (lines : List String) : Option String :=
  match pnr_label_scan lines with
  | some v => some v
  | none => pnr_fallback_scan lines

/-- `extract_transaction_id`. -/
def extract_transaction_id (lines : List String) : Option String :=
  lines.findSome? (fun line =>
    if str_contains line "Transaction ID:" then search_transaction_id line else none)

/-- `extract_print_time`: on a label line, the stripped next line is tried
before the label line itself. -/
def extract_print_time (lines : List String) : Option String :=
  lines.enum.findSome? (fun p =>
    if str_contains p.2 "Ticket Printing Time" then
      match (if p.1 + 1 < lines.length then
               find_date_time (py_strip (line_at lines (p.1 + 1)))
             else none) with
      | some v => some v
      | none => find_date_time p.2
    else none)

/-- The station-name → code table of `infer_station_code` (insertion
order preserved for the partial-match pass). -/
def station_mappings : List (String × String) :=
  [("NEW DELHI", "NDLS"), ("RATLAM JN", "RTM"), ("MUMBAI CENTRAL", "BCT"),
   ("CHENNAI CENTRAL", "MAS"), ("KOLKATA", "HWH"), ("BANGALORE", "SBC"),
   ("HYDERABAD", "HYB"), ("PUNE", "PUNE"), ("AHMEDABAD", "ADI"), ("INDORE", "INDB")]

/-- `infer_station_code`. -/
def infer_station_code (station_name : String) : String :=
  let station_name_clean := py_upper (py_strip station_name)
  match station_mappings.find? (fun m => m.1 == station_name_clean) with
  | some m => m.2
  | none =>
    match station_mappings.find? (fun m =>
        str_contains station_name_clean m.1 || str_contains m.1 station_name_clean) with
    | some m => m.2
    | none =>
      let words := py_split_ws station_name_clean
      if words.length ≥ 2 then
        py_upper (String.join ((words.take 2).map (fun w => String.mk (w.toList.take 2))))
      else
        match words with
        | [w] => py_upper (String.mk (w.toList.take 3))
        | _ => py_upper (String.mk (station_name_clean.toList.take 4))

inductive StationType where
  | boarding
  | destination
deriving DecidableEq, Repr

/-- `extract_enhanced_station_info`. -/
def extract_enhanced_station_info (lines : List String) (station_type : StationType) :
    Option StationInfo :=
  match station_type with
  | .boarding =>
    -- "Booked From" pass: only the first qualifying line is examined.
    let s1 : StationInfo :=
      match lines.enum.findSome? (fun p =>
          if str_contains p.2 "Booked From" && p.1 + 1 < lines.length then some p.1 else none) with
      | some i =>
        (match match_station_line false (py_strip (line_at lines (i + 1))) with
         | some (n, c) =>
           { station_name := some n,
             station := some (if c == "-" then infer_station_code n else c) }
         | none => {})
      | none => {}
    -- Fallback: station line within 3 lines around the first 'Departure*' line.
    let s2 : StationInfo :=
      if station_info_nonempty s1 then s1
      else
        match lines.enum.findSome? (fun p =>
            if str_contains p.2 "Departure*" then some p.1 else none) with
        | some i =>
          (match ((List.range' (i - 3) (min lines.length (i + 3) - (i - 3))).filter
                    (fun j => j ≠ i)).findSome?
                  (fun j => match_station_line false (py_strip (line_at lines j))) with
           | some (n, c) =>
             { station_name := some n,
               station := some (if c == "-" then infer_station_code n else c) }
           | none => {})
        | none => {}
    -- Departure time: first 'Departure*' line that carries a datetime.
    let dt := lines.findSome? (fun line =>
      if str_contains line "Departure*" then find_date_time line else none)
    let si := { s2 with datetime := dt }
    if station_info_nonempty si then some si else none
  | .destination =>
    -- First line equal to 'To' (stripped) whose next line is not
    -- payment/passenger text; such lines are skipped and the scan goes on.
    match lines.enum.findSome? (fun p =>
        if py_strip p.2 == "To" && p.1 + 1 < lines.length &&
            ¬ contains_any (py_lower (py_strip (line_at lines (p.1 + 1))))
                ["payment", "passenger", "fare", "required"] then
          some p.1
        else none) with
    | some i =>
      let base : StationInfo :=
        match match_station_line true (py_strip (line_at lines (i + 1))) with
        | some (n, c) =>
          { station_name := some n,
            station := some (if c == "" || c == "-" then infer_station_code n else c) }
        | none => {}
      -- Arrival time searched within 5 lines around the 'To' line.
      let dt := (List.range' (i - 5) (min lines.length (i + 5) - (i - 5))).findSome?
        (fun j =>
          if str_contains (line_at lines j) "Arrival*" then find_date_time (line_at lines j)
          else none)
      let si := { base with datetime := dt }
      if station_info_nonempty si then some si else none
    | none => none

/-- `extract_journey_info`.  The label loops carry no `break`, so a later
match overwrites an earlier one. -/
def extract_journey_info (lines : List String) : Option Journey :=
  let tn : Option String × Option String :=
    lines.enum.foldl (fun acc p =>
      if str_contains p.2 "Train No./Name" && p.1 + 1 < lines.length then
        match find_train_info (py_strip (line_at lines (p.1 + 1))) with
        | some m => (some (py_strip m.1), some (py_strip m.2))
        | none => acc
      else acc) (none, none)
  let cqd : Option String × Option String × Option Nat :=
    lines.enum.foldl (fun acc p =>
      if p.2 == "Class" then
        (if p.1 + 1 < lines.length then
           (some (py_strip (line_at lines (p.1 + 1))), acc.2.1, acc.2.2)
         else acc)
      else if p.2 == "Quota" then
        (if p.1 + 1 < lines.length then
           (acc.1, some (py_strip (line_at lines (p.1 + 1))), acc.2.2)
         else acc)
      else if p.2 == "Distance" then
        (if p.1 + 1 < lines.length then
           (match find_distance (py_strip (line_at lines (p.1 + 1))) with
            | some d => (acc.1, acc.2.1, some d)
            | none => acc)
         else acc)
      else acc) (none, none, none)
  let journey : Journey :=
    { train_number := tn.1, train_name := tn.2,
      class_type := cqd.1, quota := cqd.2.1, distance_km := cqd.2.2,
      boarding := extract_enhanced_station_info lines .boarding,
      destination := extract_enhanced_station_info lines .destination }
  if journey_truthy journey then some journey else none

/-- `f"{v}"` of a dict value that may be Python `None`. -/
def opt_str_py (o : Option String) : String :=
  match o with
  | some s => s
  | none => "None"

/-- `create_journey_key`.  The scalar keys are always present in the
journey dict (possibly `None`, which formats as "None"); the station and
datetime keys may be genuinely absent, giving the 'UNKNOWN' default. -/
def create_journey_key (journey : Journey) : String :=
  let station_field (ev : Option StationInfo) (f : StationInfo → Option String) : String :=
    match ev with
    | some si => (f si).getD "UNKNOWN"
    | none => "UNKNOWN"
  opt_str_py journey.train_number ++ "_" ++ opt_str_py journey.train_name ++ "_" ++
    opt_str_py journey.class_type ++ "_" ++
    station_field journey.boarding StationInfo.station ++ "_" ++
    station_field journey.boarding StationInfo.datetime ++ "_" ++
    station_field journey.destination StationInfo.station ++ "_" ++
    station_field journey.destination StationInfo.datetime

/-- Indices of the '--- PAGE' marker lines. -/
def page_starts (lines : List String) : List Nat :=
  (lines.enum.filter (fun p => str_contains p.2 "--- PAGE")).map (fun p => p.1)

/-- `lines[start_j : start_{j+1}]` slices (the last slice runs to the end). -/
def page_slices (lines : List String) : List Nat → List (List String)
  | [] => []
  | [s] => [lines.drop s]
  | s :: s2 :: rest => ((lines.drop s).take (s2 - s)) :: page_slices lines (s2 :: rest)

/-- The per-page journey candidates of the multi-page pass. -/
def page_candidates (lines : List String) : List Journey :=
  (page_slices lines (page_starts lines)).filterMap extract_journey_info

/-- The seen-set insertion loop of `extract_all_journeys`. -/
def dedup_journeys : List Journey → List String → List Journey
  | [], _ => []
  | j :: rest, seen =>
    let journey_key := create_journey_key j
    if seen.contains journey_key then dedup_journeys rest seen
    else j :: dedup_journeys rest (journey_key :: seen)

/-- `extract_all_journeys`. -/
def extract_all_journeys (lines : List String) : List Journey :=
  let starts := page_starts lines
  let journeys :=
    if starts.isEmpty then
      match extract_journey_info lines with
      | some j => [j]
      | none => []
    else
      dedup_journeys (page_candidates lines) []
  if journeys.isEmpty then
    match extract_journey_info lines with
    | some j => [j]
    | none => []
  else journeys

/-! ## Passenger assembly -/

/-- Step 1 of `extract_passengers`: the numbered-name scan with its
filters. -/
def scan_passenger_names (lines : List String) : List (Nat × String) :=
  lines.filterMap (fun raw =>
    let line := py_strip raw
    match numbered_name_here line with
    | some m =>
      if m.2.length > 1 then
        let name := py_upper (py_strip m.2)
        if ¬ contains_any (py_lower name) ["charges", "fee", "fare", "total", "details"] &&
            ¬ decimal_number_match name &&
            m.1 ≤ 10 &&
            name.length > 2 &&
            upper_name_match name then
          some (m.1, name)
        else none
      else none
    | none => none)

/-- `re.match(r'^(CNF|RAC|RLWL|PQWL|WL)', s)`. -/
def status_code_match (s : String) : Bool :=
  ["CNF", "RAC", "RLWL", "PQWL", "WL"].any (fun c => py_startswith s c)

/-- The section-end keywords of the detail scan. -/
def detail_stop_keyword (line : String) : Bool :=
  contains_any line ["PG Charges", "IRCTC Convenience Fee", "In case of cancellation"]

/-- Step 3 of `extract_passengers`: the while-loop over the detail block,
reading age / gender / food / status groups of four lines, capped at 6
passengers.  Structural recursion on a fuel of `lines.length`: every
iteration advances `i` by at least one while the guard keeps
`i < lines.length`, so the fuel outlasts the loop. -/
def scan_passenger_details_go (lines : List String) : Nat → Nat → Nat →
    List PassengerDetail
  | 0, _, _ => []
  | fuel + 1, i, count =>
    if i < lines.length ∧ count < 6 then
      let line := py_strip (line_at lines i)
      match age_line_match line with
      | some age =>
        if 1 ≤ age ∧ age ≤ 120 then
          let gender :=
            if i + 1 < lines.length then
              let g := py_strip (line_at lines (i + 1))
              if ["Male", "Female", "Transgender"].contains g then some g else none
            else none
          let food_choice :=
            if i + 2 < lines.length then
              let f := py_strip (line_at lines (i + 2))
              if ["Veg", "Non-Veg", "JAIN", "-"].contains f then
                (if f == "-" then none else some f)
              else none
            else none
          let booking_status :=
            if i + 3 < lines.length then
              let s := py_strip (line_at lines (i + 3))
              if status_code_match s then some s else none
            else none
          let current_status := booking_status.map (fun s =>
            String.mk (s.toList.takeWhile (fun c => c ≠ '/')))
          ⟨age, gender, food_choice, booking_status, current_status⟩ ::
            scan_passenger_details_go lines fuel (i + 4) (count + 1)
        else
          if detail_stop_keyword line then []
          else scan_passenger_details_go lines fuel (i + 1) count
      | none =>
        if detail_stop_keyword line then []
        else scan_passenger_details_go lines fuel (i + 1) count
    else []

def scan_passenger_details (lines : List String) (i count : Nat) :
    List PassengerDetail :=
  scan_passenger_details_go lines lines.length i count

/-- `extract_passengers`. -/
def extract_passengers (lines : List String) : List Passenger :=
  let passenger_names := scan_passenger_names lines
  match lines.findIdx? (fun line =>
      str_contains line "Passenger Details:" || str_contains line "Passenger Details") with
  | none =>
    -- No details section: basic passenger objects from the names alone.
    passenger_names.map (fun p => { sno := p.1, name := p.2 })
  | some passenger_start_idx =>
    let passenger_details := scan_passenger_details lines (passenger_start_idx + 1) 0
    let max_passengers := max passenger_names.length passenger_details.length
    (List.range max_passengers).map (fun i =>
      let np : Nat × String :=
        match passenger_names.get? i with
        | some p => p
        | none => (i + 1, "PASSENGER_" ++ toString (i + 1))
      match passenger_details.get? i with
      | some d =>
        { sno := np.1, name := np.2, age := some d.age, gender := d.gender,
          food_choice := d.food_choice, booking_status := d.booking_status,
          current_status := d.current_status }
      | none => { sno := np.1, name := np.2 })

/-! ## Payment extraction -/

/-- `extract_amount`: the same line first, then a full-line amount on the
next two lines; a token whose comma-stripped text fails `float()` is
passed over. -/
def extract_amount (lines : List String) (start_idx : Nat) : Option ℚ :=
  let same :=
    match find_amount (line_at lines start_idx) with
    | some m => parse_py_float (String.mk (m.filter (fun c => c ≠ ',')))
    | none => none
  match same with
  | some v => some v
  | none =>
    (List.range' (start_idx + 1) (min (start_idx + 3) lines.length - (start_idx + 1))).findSome?
      (fun i =>
        match full_line_amount (line_at lines i) with
        | some m => parse_py_float (String.mk (m.filter (fun c => c ≠ ',')))
        | none => none)

/-- `extract_payment_details`: every matching label line overwrites the
field, so the last occurrence wins. -/
def extract_payment_details (lines : List String) : Payment :=
  match lines.findIdx? (fun line =>
      str_contains line "Payment Details" || str_contains line "Ticket Fare") with
  | none => {}
  | some payment_start_idx =>
    (List.range' payment_start_idx (lines.length - payment_start_idx)).foldl
      (fun payment i =>
        let line := line_at lines i
        if str_contains line "Ticket Fare" then
          { payment with ticket_fare := extract_amount lines i }
        else if str_contains line "IRCTC Convenience Fee" then
          { payment with irctc_fee := extract_amount lines i }
        else if str_contains line "Travel Insurance Premium" || str_contains line "Insurance" then
          { payment with insurance := extract_amount lines i }
        else if str_contains line "Travel Agent Service Charge" || str_contains line "Agent" then
          { payment with agent_fee := extract_amount lines i }
        else if str_contains line "Pg Charges" then
          { payment with pg_charges := extract_amount lines i }
        else if str_contains line "Total Fare" then
          { payment with total := extract_amount lines i }
        else payment)
      {}

/-! ## Passenger enrichment -/

/-- `infer_gender_from_name`. -/
def infer_gender_from_name (name : String) : Option String :=
  if name.isEmpty then none
  else
    let name_lower := py_lower name
    if contains_any name_lower ["devi", "kumari", "ben", "bai", "rani", "mata"] then
      some "Female"
    else if contains_any name_lower ["kumar", "singh", "sharma", "das", "raj"] then
      some "Male"
    else none

/-- `categorize_age`. -/
def categorize_age (age : Nat) : String :=
  if age ≤ 12 then "child"
  else if age ≤ 17 then "minor"
  else if age ≤ 59 then "adult"
  else "senior"

/-- `calculate_passenger_confidence`: five checks worth 5.0 points,
scaled to 0–100.  The half-point fractions keep the arithmetic exact. -/
def calculate_passenger_confidence (passenger : Passenger) : ℚ :=
  let score : ℚ :=
    (if ¬ passenger.name.isEmpty ∧ passenger.name.length > 1 then
       (if upper_name_match passenger.name then 1 + 1/2 else 1)
     else 0) +
    (match passenger.age with
     | some age => if age ≠ 0 ∧ 1 ≤ age ∧ age ≤ 120 then 1 else 0
     | none => 0) +
    (match passenger.gender with
     | some g => if ["Male", "Female", "Transgender"].contains g then (1 : ℚ) else 0
     | none => 0) +
    (if opt_str_truthy passenger.booking_status ∧ opt_str_truthy passenger.current_status
     then 1 else 0) +
    (match passenger.food_choice with
     | some f => if ["Veg", "Non-Veg", "JAIN"].contains f then (1 : ℚ) / 2 else 0
     | none => 0)
  (score / 5) * 100

/-- Floor of a rational (den is positive, so flooring division works). -/
def rat_floor (q : ℚ) : ℤ := q.num.fdiv (q.den : ℤ)

/-- Python `round(x)` (round-half-to-even) on the exact rational value.
Python rounds the nearest binary double instead; for the values the
program rounds (integral percentages and rupee amounts) the two agree. -/
def py_round (q : ℚ) : ℤ :=
  let fl := rat_floor q
  let fr := q - (fl : ℚ)
  if fr < 1/2 then fl
  else if 1/2 < fr then fl + 1
  else if fl % 2 = 0 then fl else fl + 1

/-- Python `round(x, 2)`. -/
def py_round_2 (q : ℚ) : ℚ := (py_round (q * 100) : ℚ) / 100

/-- `enhance_passenger_data`.  The payment dict always carries its six
keys, so the `payment_data` guard is truthy at every call site. -/
def enhance_passenger_data (passengers : List Passenger) (payment_data : Payment) :
    List Passenger :=
  let per_passenger_fare : Option ℚ :=
    match payment_data.total with
    | some t =>
      if t ≠ 0 ∧ passengers.length > 0 then
        some (py_round_2 (t / (passengers.length : ℚ)))
      else none
    | none => none
  passengers.map (fun passenger =>
    let e1 :=
      if ¬ passenger.name.isEmpty &&
          (match passenger.age with | some a => a ≠ 0 | none => false : Bool) then
        { passenger with
          passenger_key := some (py_upper passenger.name ++ "_" ++
            toString (passenger.age.getD 0)),
          profile_data := some
            { name := py_upper passenger.name, age := passenger.age.getD 0,
              gender := passenger.gender,
              confidence_score := calculate_passenger_confidence passenger } }
      else passenger
    let e2 :=
      match per_passenger_fare with
      | some f => { e1 with fare_per_passenger := some f }
      | none => e1
    let e3 :=
      if ¬ opt_str_truthy passenger.gender ∧ ¬ passenger.name.isEmpty then
        match infer_gender_from_name passenger.name with
        | some g => { e2 with gender := some g, gender_inferred := some true }
        | none => e2
      else e2
    match passenger.age with
    | some age =>
      if age ≠ 0 then
        { e3 with
          age_category := some (categorize_age age),
          is_senior := some (decide (age ≥ 60)),
          is_child := some (decide (age ≤ 12)) }
      else e3
    | none => e3)

/-! ## Journey metadata -/

structure Connection where
  connection_station : String
  connection_type : String
  from_train : Option String
  to_train : Option String
  layover_info : Option (String × String)   -- (arrival_time, departure_time)
deriving DecidableEq, Repr

structure JourneyMeta where
  total_segments : Nat
  is_multi_segment : Bool
  total_distance : Nat
  journey_type : String
  connections : List Connection
  layovers : List String                     -- never filled by the source
  has_overnight : Option Bool                -- key added only when detected
deriving DecidableEq, Repr

/-- `analyze_journey_connection` (its try/except never fires: every
operation inside is total on these values). -/
def analyze_journey_connection (journey1 journey2 : Journey) : Option Connection :=
  let dest1 := journey1.destination
  let board2 := journey2.boarding
  let dest_station1 := py_strip (match dest1 with
    | some si => si.station.getD ""
    | none => "")
  let board_station2 := py_strip (match board2 with
    | some si => si.station.getD ""
    | none => "")
  if dest_station1 == board_station2 then
    let dest_time1 := match dest1 with | some si => si.datetime | none => none
    let board_time2 := match board2 with | some si => si.datetime | none => none
    some { connection_station := dest_station1,
           connection_type := "direct_transfer",
           from_train := journey1.train_number,
           to_train := journey2.train_number,
           layover_info :=
             if opt_str_truthy dest_time1 ∧ opt_str_truthy board_time2 then
               some (dest_time1.getD "", board_time2.getD "")
             else none }
  else none

/-- `analyze_journey_patterns`; `none` models the empty dict returned for
an empty journey list (the call sites guard on a nonempty list). -/
def analyze_journey_patterns (journeys : List Journey) : Option JourneyMeta :=
  if journeys.isEmpty then none
  else
    some
      { total_segments := journeys.length,
        is_multi_segment := journeys.length > 1,
        total_distance := (journeys.map (fun j => j.distance_km.getD 0)).sum,
        journey_type := if journeys.length > 1 then "multi_segment" else "single",
        connections := (journeys.zip journeys.tail).filterMap
          (fun p => analyze_journey_connection p.1 p.2),
        layovers := [],
        has_overnight :=
          if journeys.any (fun journey =>
              journey.boarding.isSome && journey.destination.isSome &&
              (let boarding_time := (journey.boarding.getD {}).datetime
               let arrival_time := (journey.destination.getD {}).datetime
               opt_str_truthy boarding_time && opt_str_truthy arrival_time &&
               (str_contains (boarding_time.getD "") "22:" ||
                str_contains (boarding_time.getD "") "23:" ||
                str_contains (arrival_time.getD "") "00:"))) then
            some true
          else none }

/-! ## Validation structures and the ticket record -/

inductive FieldVal where
  | value (valid : Bool) (score : ℚ) (value : String)
  | pdata (valid : Bool) (score : ℚ) (data : Passenger)
deriving DecidableEq, Repr

structure CrossEntry where
  valid : Bool
  details : String
deriving DecidableEq, Repr

structure CrossVals where
  date_time_consistency : Option CrossEntry := none
  passenger_count : Option CrossEntry := none
  payment_calculation : Option CrossEntry := none
deriving DecidableEq, Repr

structure ValidationResult where
  overall_score : ℚ
  field_validations : List (String × FieldVal)
  cross_validations : CrossVals
  anomalies : List String
  corrections_applied : List String
deriving DecidableEq, Repr

structure PageStats where
  total_pages : Nat
  passengers_extracted : Nat
  fields_extracted : Nat
  journeys_found : Nat
deriving DecidableEq, Repr

structure Stats where
  total_pages : Nat
  text_blocks_found : Nat
  passengers_extracted : Nat
  fields_extracted : Nat
  validation_score : ℚ
  anomalies_detected : Nat
deriving DecidableEq, Repr

structure AuditTrail where
  fields_extracted : List String
  passenger_count : Nat
  journey_count : Nat
  payment_fields : Nat
  validation_enabled : Bool
  extraction_stats : Stats
deriving DecidableEq, Repr

inductive ExtractionMetadata where
  | page (page_number : Nat) (extraction_method : String) (extracted_at : String)
      (stats : PageStats)
  | direct (pdf_path : String) (extraction_method : String) (extracted_at : String)
      (stats : Stats) (quality_score : ℤ) (audit_trail : AuditTrail)
deriving DecidableEq, Repr

structure TicketRecord where
  pnr : Option String
  transaction_id : Option String
  ticket_print_time : Option String
  journeys : List Journey
  passengers : List Passenger
  payment : Payment
  success : Bool
  page_number : Nat
  journey_metadata : Option JourneyMeta
  extraction_metadata : ExtractionMetadata
  validation : Option ValidationResult := none
deriving DecidableEq, Repr

/-! ## The single-page parser -/

/-- The journey list of a parsed page: the single result of
`extract_journey_info`, appended when present. -/
def parse_journeys (lines : List String) : List Journey :=
  match extract_journey_info lines with
  | some journey => [journey]
  | none => []

/-- The passenger list of a parsed page: the extracted roster, enhanced
when nonempty (`if ticket_data.get('passengers'):`). -/
def parse_passengers (lines : List String) : List Passenger :=
  let passengers0 := extract_passengers lines
  if passengers0.isEmpty then passengers0
  else enhance_passenger_data passengers0 (extract_payment_details lines)

/-- The success gate at the end of `parse_ticket_text_single_page`:
`pnr_valid` (truthy and of length exactly 10), at least one passenger
whose name is not a `PASSENGER_` placeholder, and a nonempty journey
list. -/
def ticket_success_flag (pnr : Option String) (passengers : List Passenger)
    (journeys : List Journey) : Bool :=
  let pnr_valid := opt_str_truthy pnr && ((pnr.getD "").length == 10)
  let passengers_valid := ¬ passengers.isEmpty
  let passengers_have_real_names :=
    passengers_valid &&
      decide (0 < (passengers.filter (fun p => ¬ py_startswith p.name "PASSENGER_")).length)
  let journeys_valid := ¬ journeys.isEmpty
  pnr_valid && passengers_have_real_names && journeys_valid

/-- `parse_ticket_text_single_page`.  `now` stands for the
`datetime.now().isoformat()` clock sample of the metadata block. -/
def parse_ticket_text_single_page (lines : List String) (page_number : Nat)
    (now : String) : TicketRecord :=
  let pnr := extract_pnr lines
  let transaction_id := extract_transaction_id lines
  let ticket_print_time := extract_print_time lines
  let journeys := parse_journeys lines
  -- pnr_count + trans_count + time_count + journey_count + passenger_count
  -- + payment_count; the payment dict always carries its six keys.
  let fields_extracted :=
    (if opt_str_truthy pnr then 1 else 0) +
    (if opt_str_truthy transaction_id then 1 else 0) +
    (if opt_str_truthy ticket_print_time then 1 else 0) +
    journeys.length + (extract_passengers lines).length + 6
  let passengers := parse_passengers lines
  let journey_metadata :=
    if journeys.isEmpty then none else analyze_journey_patterns journeys
  { pnr, transaction_id, ticket_print_time, journeys, passengers,
    payment := extract_payment_details lines,
    success := ticket_success_flag pnr passengers journeys,
    page_number,
    journey_metadata,
    extraction_metadata := .page page_number "enhanced_pdf_single_page" now
      ⟨1, passengers.length, fields_extracted, journeys.length⟩ }

/-! ## Validation and scoring engine -/

/-- `validate_pnr_checksum`: the fixed weight vector over the first nine
digits, modulo-10 complement against the tenth.  The try/except around
the body never fires (all operations are total here). -/
def validate_pnr_checksum (pnr : String) : Bool × ℚ :=
  if pnr.isEmpty || pnr.length ≠ 10 || ¬ py_isdigit pnr then (false, 0)
  else
    let digits := pnr.toList.map (fun c => c.toNat - '0'.toNat)
    let weights : List Nat := [2, 3, 4, 5, 6, 7, 2, 3, 4]
    let weighted_sum := (digits.dropLast.zip weights).foldl
      (fun acc p => acc + p.1 * p.2) 0
    let checksum := (10 - weighted_sum % 10) % 10
    let is_valid := checksum == digits.getLastD 0
    if is_valid then (true, 100)
    else if ["1", "2", "3", "4", "8", "9"].any (fun p => py_startswith pnr p) then (false, 85)
    else (false, 70)

/-- Modelled message of the `AttributeError` raised by the
`self.train_numbers` attribute access in `validate_train_number`: the
constructor only defines `self.train_database`, so the access fails for
every well-formed five-digit train number before the membership test. -/
def train_numbers_attribute_error : String :=
  "AttributeError: EnhancedIRCTCTicketExtractor object has no attribute train_numbers"

/-- Keys of `self.train_database` (never consulted by the validator,
which misspells the attribute). -/
def train_database_keys : List String := ["20958", "20946", "12956"]

/-- `validate_train_number`. -/
def validate_train_number (train_number : String) : Except String (Bool × ℚ) := do
  if train_number.isEmpty then return (false, 0)
  if ¬ py_isdigit train_number || train_number.length ≠ 5 then return (false, 30)
  let train_numbers : List String ← throw train_numbers_attribute_error
  -- Unreachable continuation of the source: directory membership, then
  -- the plausible five-digit range, else 50.
  if train_numbers.contains train_number then return (true, 100)
  let train_num := nat_of_digits train_number.toList
  if 10000 ≤ train_num ∧ train_num ≤ 99999 then return (true, 80)
  return (false, 50)

/-- Keys of `self.station_codes`. -/
def station_codes_keys : List String :=
  ["NDLS", "BCT", "MAS", "HWH", "RTM", "BRC", "JP", "ADI"]

/-- `validate_station_code`. -/
def validate_station_code (station_code : String) : Bool × ℚ :=
  if station_code.isEmpty then (false, 0)
  else if ¬ py_isupper station_code || ¬ py_isalpha station_code then (false, 20)
  else if station_code.length < 2 || station_code.length > 5 then (false, 30)
  else if station_codes_keys.contains station_code then (true, 100)
  else (false, 60)

/-- `validate_passenger_data`: five one-point checks, valid iff ≥ 80%. -/
def validate_passenger_data (passenger : Passenger) : Bool × ℚ :=
  let score : ℚ :=
    (if ¬ passenger.name.isEmpty ∧ passenger.name.length > 1 then 1 else 0) +
    (match passenger.age with
     | some age => if age ≠ 0 ∧ 1 ≤ age ∧ age ≤ 120 then 1 else 0
     | none => 0) +
    (match passenger.gender with
     | some g => if ["Male", "Female", "Transgender"].contains g then (1 : ℚ) else 0
     | none => 0) +
    (match passenger.food_choice with
     | some f => if ["Veg", "Non-Veg", "JAIN"].contains f then (1 : ℚ) else 0
     | none => 1) +
    (match passenger.booking_status with
     | some bs =>
       if ¬ bs.isEmpty ∧ ["CNF", "RAC", "WL"].any (fun st => str_contains bs st) then
         (1 : ℚ)
       else 0
     | none => 0)
  let percentage := (score / 5) * 100
  (decide (percentage ≥ 80), percentage)

/-- `correct_station_code`: the four OCR substitutions replace distinct
letters by digits, so the chained `str.replace` calls act as one
character map.  A digit-bearing result can never match the all-letter
directory keys, so the correction only succeeds when nothing changed —
and then only for a code already rejected, i.e. never at its call site. -/
def correct_station_code (station_code : String) : Option String :=
  if station_code.isEmpty then none
  else
    let corrected := String.mk (station_code.toList.map (fun c =>
      if c = 'O' then '0'
      else if c = 'I' then '1'
      else if c = 'S' then '5'
      else if c = 'B' then '8'
      else c))
    if station_codes_keys.contains corrected then some corrected else none

/-- The keys `validate_extracted_data` and `perform_cross_validations`
read from the ticket dict.  `parse_ticket_text_single_page` never sets
`train_number`, `from_station`, `to_station`, `journey_date` or
`payment_details` (its journey data lives under `journeys` and its
payment dict under `payment`), so those lookups yield `None` for every
parsed record. -/
structure TicketDict where
  pnr : Option String
  train_number : Option String
  from_station : Option StationInfo
  to_station : Option StationInfo
  passengers : List Passenger
  journey_date : Option String
  payment_details : Option Payment
deriving DecidableEq, Repr

/-- The view of a parsed record that the validation engine reads. -/
def to_ticket_dict (r : TicketRecord) : TicketDict :=
  { pnr := r.pnr, train_number := none, from_station := none, to_station := none,
    passengers := r.passengers, journey_date := none, payment_details := none }

/-- Truthiness of an optional float (`0.0` is falsy). -/
def float_truthy (o : Option ℚ) : Bool :=
  match o with
  | some v => v ≠ 0
  | none => false

/-- Modelled message of the `TypeError` raised when the component sum of
`perform_cross_validations` adds a `None` fee value (`payment.get(k, 0)`
returns the stored `None` because the key itself is always present). -/
def type_error_none_add : String :=
  "TypeError: unsupported operand types for + including NoneType"

def get_float_or_raise (o : Option ℚ) : Except String ℚ :=
  match o with
  | some v => pure v
  | none => throw type_error_none_add

/-- `perform_cross_validations`.  The numeric rendering inside the
`details` strings approximates Python float formatting; only the `valid`
flags are compared anywhere. -/
def perform_cross_validations (ticket_data : TicketDict) : Except String CrossVals := do
  let date_time_consistency : Option CrossEntry :=
    match ticket_data.journey_date, ticket_data.from_station with
    | some jd, some fs =>
      if ¬ jd.isEmpty ∧ station_info_nonempty fs then
        match fs.datetime with
        | some from_datetime =>
          if ¬ from_datetime.isEmpty then
            some ⟨str_contains from_datetime jd,
                  "Journey date " ++ jd ++ " vs departure " ++ from_datetime⟩
          else none
        | none => none
      else none
    | _, _ => none
  let passenger_count := ticket_data.passengers.length
  let passenger_count_entry : Option CrossEntry :=
    if passenger_count > 0 then
      some ⟨decide (1 ≤ passenger_count ∧ passenger_count ≤ 6),
            "Found " ++ toString passenger_count ++ " passengers"⟩
    else none
  let payment_calculation : Option CrossEntry ←
    match ticket_data.payment_details with
    | none => pure none   -- .get('payment_details', {}): the empty dict, all lookups None
    | some payment =>
      if float_truthy payment.total && float_truthy payment.ticket_fare then do
        let tf ← get_float_or_raise payment.ticket_fare
        let cf ← get_float_or_raise payment.irctc_fee
        let ins ← get_float_or_raise payment.insurance
        let af ← get_float_or_raise payment.agent_fee
        let pg ← get_float_or_raise payment.pg_charges
        let calculated_total := tf + cf + ins + af + pg
        let total := payment.total.getD 0
        let difference := |total - calculated_total|
        pure (some ⟨decide (difference < 1),
              "Total: " ++ toString total ++ ", Calculated: " ++ toString calculated_total⟩)
      else pure none
  return { date_time_consistency, passenger_count := passenger_count_entry,
           payment_calculation }

/-- The station-field pass of `validate_extracted_data` for one of
`from_station` / `to_station`: returns the dict entries, score sum, field
count, anomalies, corrections and the (possibly corrected) station. -/
def validate_station_field (label : String) (si? : Option StationInfo) :
    List (String × FieldVal) × ℚ × Nat × List String × List String × Option StationInfo :=
  match si? with
  | some si =>
    if station_info_nonempty si then
      match si.station with
      | some station_code =>
        if ¬ station_code.isEmpty then
          let v := validate_station_code station_code
          let entry := [(label ++ "_code", FieldVal.value v.1 v.2 station_code)]
          if v.1 then (entry, v.2, 1, [], [], si?)
          else
            let anom := ["Unknown station code: " ++ station_code]
            match correct_station_code station_code with
            | some corrected =>
              (entry, v.2, 1, anom, ["Corrected " ++ station_code ++ " → " ++ corrected],
               some { si with station := some corrected })
            | none => (entry, v.2, 1, anom, [], si?)
        else ([], 0, 0, [], [], si?)
      | none => ([], 0, 0, [], [], si?)
    else ([], 0, 0, [], [], si?)
  | none => ([], 0, 0, [], [], si?)

/-- `validate_extracted_data`.  Returns the validation result together
with the updated ticket dict (gender inference and station correction
mutate the dict in place in the source); the error channel carries the
exceptions its field validators can raise. -/
def validate_extracted_data (ticket_data : TicketDict) :
    Except String (ValidationResult × TicketDict) := do
  -- 1. PNR validation
  let pnr_step :=
    match ticket_data.pnr with
    | some p =>
      if ¬ p.isEmpty then
        let v := validate_pnr_checksum p
        ([("pnr", FieldVal.value v.1 v.2 p)], v.2, 1,
         if v.1 then [] else ["Invalid PNR checksum: " ++ p])
      else (([] : List (String × FieldVal)), (0 : ℚ), 0, ([] : List String))
    | none => ([], 0, 0, [])
  -- 2. Train number validation
  let train_step ←
    match ticket_data.train_number with
    | some tn =>
      if ¬ tn.isEmpty then do
        let v ← validate_train_number tn
        pure ([("train_number", FieldVal.value v.1 v.2 tn)], v.2, 1,
              if v.1 then [] else ["Unknown train number: " ++ tn])
      else pure (([] : List (String × FieldVal)), (0 : ℚ), 0, ([] : List String))
    | none => pure ([], 0, 0, [])
  -- 3. Station code validation (from_station, then to_station)
  let fs_step := validate_station_field "from_station" ticket_data.from_station
  let ts_step := validate_station_field "to_station" ticket_data.to_station
  -- 4. Passenger validation with in-place gender inference
  let pass_step := ticket_data.passengers.enum.foldl
    (fun (acc : List (String × FieldVal) × ℚ × Nat × List String × List Passenger) p =>
      let passenger := p.2
      let v := validate_passenger_data passenger
      let infer :=
        if ¬ opt_str_truthy passenger.gender ∧ ¬ passenger.name.isEmpty then
          match infer_gender_from_name passenger.name with
          | some g => (["Inferred gender for " ++ passenger.name ++ ": " ++ g],
                       { passenger with gender := some g })
          | none => (([] : List String), passenger)
        else ([], passenger)
      -- the stored `data` aliases the mutated dict, so it shows the
      -- inferred gender even though the score was computed before it
      (acc.1 ++ [("passenger_" ++ toString (p.1 + 1), FieldVal.pdata v.1 v.2 infer.2)],
       acc.2.1 + v.2, acc.2.2.1 + 1, acc.2.2.2.1 ++ infer.1, acc.2.2.2.2 ++ [infer.2]))
    ([], 0, 0, [], [])
  let updated : TicketDict :=
    { ticket_data with
      from_station := fs_step.2.2.2.2.2, to_station := ts_step.2.2.2.2.2,
      passengers := pass_step.2.2.2.2 }
  -- 5. Cross-field validations (on the mutated dict)
  let cross_validations ← perform_cross_validations updated
  let total_score := pnr_step.2.1 + train_step.2.1 + fs_step.2.1 + ts_step.2.1 + pass_step.2.1
  let field_count :=
    pnr_step.2.2.1 + train_step.2.2.1 + fs_step.2.2.1 + ts_step.2.2.1 + pass_step.2.2.1
  let overall_score : ℚ :=
    if field_count > 0 then ((total_score / (field_count : ℚ)) * 100) else 0
  let validation_result : ValidationResult :=
    { overall_score,
      field_validations :=
        pnr_step.1 ++ train_step.1 ++ fs_step.1 ++ ts_step.1 ++ pass_step.1,
      cross_validations,
      anomalies := pnr_step.2.2.2 ++ train_step.2.2.2 ++ fs_step.2.2.2.1 ++ ts_step.2.2.2.1,
      corrections_applied := fs_step.2.2.2.2.1 ++ ts_step.2.2.2.2.1 ++ pass_step.2.2.2.1 }
  return (validation_result, updated)

/-! ## Quality score, audit trail and the orchestrator -/

/-- `calculate_quality_score`: 20 points per truthy core field out of
100, rescaled (a no-op) and rounded.  The payment dict always holds its
six keys, so it is a truthy dict of positive length and always scores. -/
def calculate_quality_score (ticket_data : TicketRecord) : ℤ :=
  let score : ℚ :=
    (if opt_str_truthy ticket_data.pnr then 20 else 0) +
    (if opt_str_truthy ticket_data.transaction_id then 20 else 0) +
    (if ticket_data.passengers.length > 0 then 20 else 0) +
    (if ticket_data.journeys.length > 0 then 20 else 0) +
    20
  let max_score : ℚ := 100
  py_round ((score / max_score) * 100)

/-- The key list of the ticket dict at audit time (insertion order:
the parser's literal keys, then `journey_metadata` when added, then
`extraction_metadata`, then `validation` when the orchestrator added
it). -/
def record_keys (r : TicketRecord) : List String :=
  ["pnr", "transaction_id", "ticket_print_time", "journeys", "passengers", "payment",
   "success", "page_number"] ++
  (if r.journey_metadata.isSome then ["journey_metadata"] else []) ++
  ["extraction_metadata"] ++
  (if r.validation.isSome then ["validation"] else [])

/-- `generate_audit_trail`. -/
def generate_audit_trail (ticket_data : TicketRecord) (validate : Bool)
    (stats : Stats) : AuditTrail :=
  { fields_extracted := record_keys ticket_data,
    passenger_count := ticket_data.passengers.length,
    journey_count := ticket_data.journeys.length,
    payment_fields := 6,   -- len(payment dict): its six keys are always present
    validation_enabled := validate,
    extraction_stats := stats }

structure MultiMeta where
  pdf_path : String
  extraction_method : String
  extracted_at : String
  total_pages : Nat
  bookings_found : Nat
deriving DecidableEq, Repr

/-- The shapes `extract_from_pdf` can return: a single ticket record, the
multi-booking wrapper, the no-valid-pages failure dict, and the
exception-handler failure dict `{'error': str(e),
'extraction_method': 'pdf_direct', 'success': False}`. -/
inductive ExtractResult where
  | single (r : TicketRecord)
  | multi (booking_count : Nat) (bookings : List TicketRecord) (meta : MultiMeta)
  | noValid (error : String)
  | failure (error : String)
deriving DecidableEq, Repr

/-- The `success` key of the returned dict. -/
def ExtractResult.success : ExtractResult → Bool
  | .single r => r.success
  | .multi _ _ _ => true
  | .noValid _ => false
  | .failure _ => false

/-- The `error` key of the returned dict (absent on the success shapes). -/
def ExtractResult.errorMsg : ExtractResult → Option String
  | .single _ => none
  | .multi _ _ _ => none
  | .noValid e => some e
  | .failure e => some e

/-- Every booking record carried by the result: the sole record, or the
bookings of the multi-booking wrapper. -/
def ExtractResult.bookingRecords : ExtractResult → List TicketRecord
  | .single r => [r]
  | .multi _ bs _ => bs
  | .noValid _ => []
  | .failure _ => []

/-- A document as the text layer presents it: one `split('\n')` line list
per page.  `fitz.open` and `page.get_text()` are the external provider;
its result (or failure) is the orchestrator's input. -/
structure PdfDoc where
  pages : List (List String)
deriving DecidableEq, Repr

/-- Modelled message of the `IndexError` PyMuPDF raises for `doc[0]` on a
document with zero pages. -/
def page_not_in_document : String := "page not in document"

/-- The body of `extract_from_pdf` — everything inside its `try:` block.
`open_result` is the outcome of `fitz.open`, `validate` the constructor
flag, `now` the clock sample for the metadata timestamps. -/
def extract_from_pdf_body (open_result : Except String PdfDoc) (validate : Bool)
    (pdf_path now : String) : Except String ExtractResult := do
  let doc ← open_result
  if doc.pages.length > 1 then
    -- Multi-page: each page parsed as its own booking, kept when truthy
    -- success; validation is skipped entirely on this path.
    let all_tickets := (doc.pages.enum.map
        (fun p => parse_ticket_text_single_page p.2 (p.1 + 1) now)).filter
      (fun t => t.success)
    match all_tickets with
    | [t] => return .single t
    | [] =>
      return .noValid
          ("No valid ticket data found in " ++ toString doc.pages.length ++ " pages")
    | ts =>
      return .multi ts.length ts
          ⟨pdf_path, "enhanced_pdf_multi_booking", now, doc.pages.length, ts.length⟩
  else
    -- Single page (`doc[0]` raises when the document has no pages).
    let page_lines ← match doc.pages with
      | [] => throw page_not_in_document
      | p :: _ => pure p
    let ticket_data := parse_ticket_text_single_page page_lines 1 now
    let step ←
      if validate then do
        let vd ← validate_extracted_data (to_ticket_dict ticket_data)
        -- validation mutates the passenger dicts in place and attaches
        -- the result under the new 'validation' key
        pure ({ ticket_data with
                passengers := vd.2.passengers,
                validation := some vd.1 },
              vd.1.overall_score, vd.1.anomalies.length)
      else pure (ticket_data, (0 : ℚ), 0)
    let ticket_data := step.1
    let stats : Stats :=
      { total_pages := doc.pages.length,        -- set on entry from doc.page_count
        text_blocks_found := 0,
        passengers_extracted := ticket_data.passengers.length,  -- set by extract_passengers
        fields_extracted := 0,                  -- only the unused multi-segment parser writes it
        validation_score := step.2.1,
        anomalies_detected := step.2.2 }
    let quality_score := calculate_quality_score ticket_data
    let audit_trail := generate_audit_trail ticket_data validate stats
    return .single { ticket_data with
      extraction_metadata :=
        .direct pdf_path "enhanced_pdf_direct" now stats quality_score audit_trail }

/-- `extract_from_pdf`: the body wrapped in the `except Exception`
handler that converts any failure into the structured failure dict. -/
def extract_from_pdf (open_result : Except String PdfDoc) (validate : Bool)
    (pdf_path now : String) : ExtractResult :=
  match extract_from_pdf_body open_result validate pdf_path now with
  | .ok ticket_data => ticket_data
  | .error e => .failure e

/-! ## Theorems

One theorem (plus witness / counterexample where required) per claim of
the specification, with shared helper lemmas. -/

/-- The detail-record list scanned by steps 2–3 of `extract_passengers`
(empty when the details anchor is missing). -/
def scan_details_of (lines : List String) : List PassengerDetail :=
  match lines.findIdx? (fun line =>
      str_contains line "Passenger Details:" || str_contains line "Passenger Details") with
  | none => []
  | some idx => scan_passenger_details lines (idx + 1) 0

lemma parse_success_eq (lines : List String) (n : Nat) (now : String) :
    (parse_ticket_text_single_page lines n now).success =
      ticket_success_flag (extract_pnr lines) (parse_passengers lines)
        (parse_journeys lines) := rfl

lemma parse_pnr_eq (lines : List String) (n : Nat) (now : String) :
    (parse_ticket_text_single_page lines n now).pnr = extract_pnr lines := rfl

lemma parse_passengers_eq (lines : List String) (n : Nat) (now : String) :
    (parse_ticket_text_single_page lines n now).passengers = parse_passengers lines := rfl

lemma parse_journeys_eq (lines : List String) (n : Nat) (now : String) :
    (parse_ticket_text_single_page lines n now).journeys = parse_journeys lines := rfl

lemma ticket_success_flag_iff (pnr : Option String) (ps : List Passenger)
    (js : List Journey) :
    ticket_success_flag pnr ps js = true ↔
      ((∃ s, pnr = some s ∧ s.length = 10) ∧
       (∃ p ∈ ps, ¬ py_startswith p.name "PASSENGER_") ∧
       js ≠ []) := by
  unfold ticket_success_flag
  cases pnr with
  | none => simp [opt_str_truthy]
  | some s =>
    simp only [opt_str_truthy, Bool.and_eq_true, decide_eq_true_eq, Option.getD_some,
      beq_iff_eq, Option.some.injEq]
    constructor
    · rintro ⟨⟨⟨hne, hlen⟩, hpsv, hreal⟩, hjs⟩
      refine ⟨⟨s, rfl, hlen⟩, ?_, by simpa using hjs⟩
      obtain ⟨p, hp⟩ := List.length_pos_iff_exists_mem.mp hreal
      have hm := List.mem_filter.mp hp
      exact ⟨p, hm.1, by simpa using hm.2⟩
    · rintro ⟨⟨s', hs', hlen⟩, ⟨p, hp, hpred⟩, hjs⟩
      obtain rfl : s = s' := hs'
      have hps : ¬ ps.isEmpty := by
        cases ps with
        | nil => cases hp
        | cons a l => simp
      refine ⟨⟨⟨?_, hlen⟩, by simpa using hps, ?_⟩, by simpa using hjs⟩
      · intro he
        rw [String.isEmpty_iff] at he
        rw [he] at hlen
        simp at hlen
      · have : p ∈ ps.filter (fun q => ¬ py_startswith q.name "PASSENGER_") :=
          List.mem_filter.mpr ⟨hp, by simpa using hpred⟩
        exact List.length_pos_iff_exists_mem.mpr ⟨p, this⟩

/-- C1: for every line sequence, the record returned by
`parse_ticket_text_single_page` has `success = true` exactly when its
extracted identifier is present with length exactly 10, at least one
passenger name is not a `PASSENGER_` placeholder, and the journey list is
nonempty; in particular a record whose passenger names are all
placeholders has `success = false`. -/
theorem C1_success_iff (lines : List String) (page_number : Nat) (now : String) :
    ((parse_ticket_text_single_page lines page_number now).success = true ↔
      ((∃ s, (parse_ticket_text_single_page lines page_number now).pnr = some s ∧
          s.length = 10) ∧
       (∃ p ∈ (parse_ticket_text_single_page lines page_number now).passengers,
          ¬ py_startswith p.name "PASSENGER_") ∧
       (parse_ticket_text_single_page lines page_number now).journeys ≠ [])) ∧
    ((∀ p ∈ (parse_ticket_text_single_page lines page_number now).passengers,
        py_startswith p.name "PASSENGER_" = true) →
      (parse_ticket_text_single_page lines page_number now).success = false) := by
  have hiff := ticket_success_flag_iff (extract_pnr lines) (parse_passengers lines)
    (parse_journeys lines)
  rw [parse_success_eq, parse_pnr_eq, parse_passengers_eq, parse_journeys_eq]
  refine ⟨hiff, ?_⟩
  intro hall
  by_contra hs
  have hs' : ticket_success_flag (extract_pnr lines) (parse_passengers lines)
      (parse_journeys lines) = true := by
    cases h : ticket_success_flag (extract_pnr lines) (parse_passengers lines)
        (parse_journeys lines)
    · exact absurd h hs
    · rfl
  obtain ⟨-, ⟨p, hp, hnp⟩, -⟩ := hiff.mp hs'
  exact hnp (hall p hp)

/-- A page with a well-formed identifier and a journey but only a
placeholder passenger (details without a numbered name list). -/
def c1_lines : List String :=
  ["PNR: 1234567890", "Train No./Name", "12345 -TEST EXP",
   "Passenger Details:", "35", "Male", "Veg", "CNF/B2/45"]

/-- Witness for C1 at a concrete page: every passenger name is a
placeholder, and the parsed record indeed reports `success = false`. -/
theorem C1_success_iff_witness :
    (∀ p ∈ (parse_ticket_text_single_page c1_lines 1 "t").passengers,
        py_startswith p.name "PASSENGER_" = true) ∧
    (parse_ticket_text_single_page c1_lines 1 "t").success = false :=
  ⟨by decide, (C1_success_iff c1_lines 1 "t").2 (by decide)⟩

lemma foldl_add_mul (l : List (Nat × Nat)) (a : Nat) :
    l.foldl (fun acc p => acc + p.1 * p.2) a = a + (l.map (fun p => p.1 * p.2)).sum := by
  induction l generalizing a with
  | nil => simp
  | cons x t ih => simp [ih, Nat.add_assoc]

/-- The check digit the specification prescribes for a ten-digit
identifier: the weighted sum of the first nine digits under the fixed
weight vector `[2,3,4,5,6,7,2,3,4]`, taken to its modulo-10
complement. -/
def spec_check_digit (pnr : String) : Nat :=
  let ds := (pnr.toList.take 9).map (fun c => c.toNat - '0'.toNat)
  (10 - ((ds.zip [2, 3, 4, 5, 6, 7, 2, 3, 4]).map (fun p => p.1 * p.2)).sum % 10) % 10

/-- C3: on every ten-digit numeric string, `validate_pnr_checksum`
returns `(true, 100)` exactly when the tenth digit equals the weighted
check digit of the specification (weights `[2,3,4,5,6,7,2,3,4]`,
modulo-10 complement); on checksum failure it returns `(false, 85)` when
the first digit lies in the common-prefix set and `(false, 70)`
otherwise; and over the fixed digits `123456789` the computed check digit
is the fixed value 4 — only the string ending in it yields
`(true, 100)`. -/
theorem C3_pnr_checksum (pnr : String) (h10 : pnr.length = 10)
    (hdig : ∀ c ∈ pnr.toList, c.isDigit) :
    (validate_pnr_checksum pnr = (true, 100) ↔
      (pnr.toList.getLastD '0').toNat - '0'.toNat = spec_check_digit pnr) ∧
    ((pnr.toList.getLastD '0').toNat - '0'.toNat ≠ spec_check_digit pnr →
      validate_pnr_checksum pnr =
        (false,
          if ["1", "2", "3", "4", "8", "9"].any (fun p => py_startswith pnr p) then 85
          else 70)) ∧
    (∀ d : Nat, d < 10 →
      (validate_pnr_checksum ("123456789".push (Char.ofNat ('0'.toNat + d))) = (true, 100) ↔
        d = 4)) := by
  have hlen : pnr.toList.length = 10 := h10
  have hne : pnr.isEmpty = false := by
    cases hp : pnr.isEmpty
    · rfl
    · rw [String.isEmpty_iff] at hp
      rw [hp] at h10
      simp at h10
  have hpd : py_isdigit pnr = true := by
    have hall : pnr.toList.all Char.isDigit = true := List.all_eq_true.mpr hdig
    have hall' : pnr.data.all Char.isDigit = true := hall
    simp [py_isdigit, hne, hall, hall']
  have hbody :
      validate_pnr_checksum pnr =
        (if ((10 - ((pnr.toList.map (fun c => c.toNat - '0'.toNat)).dropLast.zip
                  [2, 3, 4, 5, 6, 7, 2, 3, 4]).foldl (fun acc p => acc + p.1 * p.2) 0 % 10) % 10 ==
              (pnr.toList.map (fun c => c.toNat - '0'.toNat)).getLastD 0) then (true, 100)
         else if ["1", "2", "3", "4", "8", "9"].any (fun p => py_startswith pnr p) then
           (false, 85)
         else (false, 70)) := by
    simp only [validate_pnr_checksum]
    rw [if_neg (by simp [hne, h10, hpd])]
  have hsum :
      ((pnr.toList.map (fun c => c.toNat - '0'.toNat)).dropLast.zip
          [2, 3, 4, 5, 6, 7, 2, 3, 4]).foldl (fun acc p => acc + p.1 * p.2) 0 =
        ((((pnr.toList.take 9).map (fun c => c.toNat - '0'.toNat)).zip
            [2, 3, 4, 5, 6, 7, 2, 3, 4]).map (fun p => p.1 * p.2)).sum := by
    rw [foldl_add_mul, Nat.zero_add, ← List.map_dropLast, List.dropLast_eq_take, hlen]
  have hlast :
      (pnr.toList.map (fun c => c.toNat - '0'.toNat)).getLastD 0 =
        (pnr.toList.getLastD '0').toNat - '0'.toNat := by
    have h := List.getLastD_map (fun c => c.toNat - '0'.toNat) pnr.toList '0'
    simpa using h
  have hcheck :
      (10 - ((pnr.toList.map (fun c => c.toNat - '0'.toNat)).dropLast.zip
          [2, 3, 4, 5, 6, 7, 2, 3, 4]).foldl (fun acc p => acc + p.1 * p.2) 0 % 10) % 10 =
        spec_check_digit pnr := by
    rw [hsum]; rfl
  rw [hcheck, hlast] at hbody
  set L := (pnr.toList.getLastD '0').toNat - '0'.toNat with hLdef
  refine ⟨?_, ?_, ?_⟩
  · rw [hbody]
    by_cases hv : L = spec_check_digit pnr
    · have hc : (spec_check_digit pnr == L) = true := by simp [hv]
      rw [if_pos hc]
      exact ⟨fun _ => hv, fun _ => rfl⟩
    · have hc : ¬ ((spec_check_digit pnr == L) = true) := by
        simp only [beq_iff_eq]
        exact fun h => hv h.symm
      rw [if_neg hc]
      constructor
      · intro hcontra
        by_cases hpre : (["1", "2", "3", "4", "8", "9"].any
            (fun p => py_startswith pnr p)) = true
        · rw [if_pos hpre] at hcontra
          exact Bool.noConfusion (congrArg Prod.fst hcontra)
        · rw [if_neg hpre] at hcontra
          exact Bool.noConfusion (congrArg Prod.fst hcontra)
      · intro h
        exact absurd h hv
  · intro hne'
    have hc : ¬ ((spec_check_digit pnr == L) = true) := by
      simp only [beq_iff_eq]
      exact fun h => hne' h.symm
    rw [hbody, if_neg hc]
    split <;> rfl
  · intro d hd
    interval_cases d <;> decide

/-- Witness for C3: the identifier `1234567894` (check digit 4 for the
digits `123456789`) passes with `(true, 100)`, while `1234567890` fails
its checksum and scores 85 under the common-prefix rule. -/
theorem C3_pnr_checksum_witness :
    validate_pnr_checksum "1234567894" = (true, 100) ∧
    validate_pnr_checksum "1234567890" = (false, 85) := by
  constructor
  · exact ((C3_pnr_checksum "1234567894" (by decide) (by decide)).1).mpr (by decide)
  · have h := (C3_pnr_checksum "1234567890" (by decide) (by decide)).2.1 (by decide)
    rw [h]
    decide

def c4_lines : List String :=
  ["1. SUKH", "2. BANSAL", "Passenger Details:", "35", "Male", "Veg", "CNF/B2/45"]

/-- C4 counterexample: at the claim's own input — the numbered names
SUKH and BANSAL together with exactly one complete scanned detail record
— the detail record (age 35, Male, Veg, CNF) is merged into the FIRST
passenger by the index-wise zip; the second passenger carries no detail
data at all (its age is `None`), so the claim's "the second passenger
carries the scanned detail record" is false at this input. -/
theorem C4_counterexample :
    scan_passenger_names c4_lines = [(1, "SUKH"), (2, "BANSAL")] ∧
    scan_details_of c4_lines =
      [⟨35, some "Male", some "Veg", some "CNF/B2/45", some "CNF"⟩] ∧
    extract_passengers c4_lines =
      [{ sno := 1, name := "SUKH", age := some 35, gender := some "Male",
         food_choice := some "Veg", booking_status := some "CNF/B2/45",
         current_status := some "CNF" },
       { sno := 2, name := "BANSAL" }] ∧
    ((extract_passengers c4_lines).get? 1).map Passenger.age = some none := by
  decide

/-- C4 (amended): whenever the scan yields the numbered names SUKH and
BANSAL and exactly one complete detail record, `extract_passengers`
returns exactly two passengers with no placeholder introduced, and the
index-wise merge attaches the single detail record to the FIRST
passenger; the second passenger's detail fields are all unknown. -/
theorem C4_first_detail_to_first_passenger (lines : List String) (d : PassengerDetail)
    (hn : scan_passenger_names lines = [(1, "SUKH"), (2, "BANSAL")])
    (hd : scan_details_of lines = [d]) :
    extract_passengers lines =
      [{ sno := 1, name := "SUKH", age := some d.age, gender := d.gender,
         food_choice := d.food_choice, booking_status := d.booking_status,
         current_status := d.current_status },
       { sno := 2, name := "BANSAL" }] := by
  unfold extract_passengers
  unfold scan_details_of at hd
  cases hidx : lines.findIdx? (fun line =>
      str_contains line "Passenger Details:" || str_contains line "Passenger Details") with
  | none =>
    rw [hidx] at hd
    cases hd
  | some idx =>
    rw [hidx] at hd
    have hd' : scan_passenger_details lines (idx + 1) 0 = [d] := hd
    simp only [hidx]
    rw [hn, hd']
    rfl

/-- Witness for the amended C4 at the concrete seven-line input. -/
theorem C4_witness :
    extract_passengers c4_lines =
      [{ sno := 1, name := "SUKH", age := some 35, gender := some "Male",
         food_choice := some "Veg", booking_status := some "CNF/B2/45",
         current_status := some "CNF" },
       { sno := 2, name := "BANSAL" }] :=
  C4_first_detail_to_first_passenger c4_lines
    ⟨35, some "Male", some "Veg", some "CNF/B2/45", some "CNF"⟩ (by decide) (by decide)

/-- The passenger the claim's index-wise merge prescribes at position
`i`: the i-th scanned name when it exists (placeholder
`PASSENGER_<i+1>` otherwise) paired with the i-th scanned detail record
when it exists (all-unknown detail fields otherwise). -/
def spec_merged_passenger (names : List (Nat × String)) (details : List PassengerDetail)
    (i : Nat) : Passenger :=
  let np : Nat × String :=
    match names.get? i with
    | some p => p
    | none => (i + 1, "PASSENGER_" ++ toString (i + 1))
  match details.get? i with
  | some d =>
    { sno := np.1, name := np.2, age := some d.age, gender := d.gender,
      food_choice := d.food_choice, booking_status := d.booking_status,
      current_status := d.current_status }
  | none => { sno := np.1, name := np.2 }

lemma map_basic_eq_merge (names : List (Nat × String)) (i : Nat) :
    (names.map (fun p => ({ sno := p.1, name := p.2 } : Passenger))).get? i =
      if i < max names.length ([] : List PassengerDetail).length then
        some (spec_merged_passenger names [] i)
      else none := by
  rw [List.get?_map]
  cases hni : names.get? i with
  | some np =>
    obtain ⟨hi, -⟩ := List.get?_eq_some.mp hni
    rw [if_pos (by simpa using hi)]
    have hni2 : names[i]? = some np := by
      rw [← List.get?_eq_getElem?]
      exact hni
    simp [spec_merged_passenger, hni2]
  | none =>
    have hi : names.length ≤ i := List.get?_eq_none.mp hni
    rw [if_neg (by simpa using hi)]
    rfl

/-- C5: for every line sequence, the roster assembled by
`extract_passengers` has length equal to the longer of the two scanned
lists, and position `i` holds exactly the index-wise merge of the i-th
name (else placeholder `PASSENGER_<i+1>`) with the i-th detail record
(else all-unknown fields). -/
theorem C5_index_merge (lines : List String) :
    (extract_passengers lines).length =
      max (scan_passenger_names lines).length (scan_details_of lines).length ∧
    ∀ i : Nat,
      (extract_passengers lines).get? i =
        if i < max (scan_passenger_names lines).length (scan_details_of lines).length
        then some (spec_merged_passenger (scan_passenger_names lines)
          (scan_details_of lines) i)
        else none := by
  unfold extract_passengers scan_details_of
  cases hidx : lines.findIdx? (fun line =>
      str_contains line "Passenger Details:" || str_contains line "Passenger Details") with
  | some idx =>
    constructor
    · simp
    · intro i
      by_cases hi : i < max (scan_passenger_names lines).length
          (scan_passenger_details lines (idx + 1) 0).length
      · rw [if_pos hi, List.get?_map, List.get?_range hi]
        rfl
      · rw [if_neg hi, List.get?_map, List.get?_eq_none.mpr (by simpa using hi)]
        rfl
  | none =>
    constructor
    · simp
    · intro i
      exact map_basic_eq_merge (scan_passenger_names lines) i

def c2_ticket_dict : TicketDict :=
  { pnr := some "1234567894", train_number := none, from_station := none,
    to_station := none, passengers := [], journey_date := none, payment_details := none }

/-- C2 (code bug): `validate_extracted_data` divides the summed
per-field scores by the field count and then multiplies by a further
100; since every per-field score already lies on the 0-100 scale, a
record with one checksum-valid identifier (per-field score 100) gets an
overall score of `(100 / 1) * 100 = 10000` — not the arithmetic mean
100, and far outside the 0-100 range the specification prescribes. -/
theorem C2_overall_score_eval :
    ∃ vr td, validate_extracted_data c2_ticket_dict = .ok (vr, td) ∧
      vr.field_validations = [("pnr", FieldVal.value true 100 "1234567894")] ∧
      vr.overall_score = 10000 ∧ ¬ vr.overall_score ≤ 100 := by
  refine ⟨_, _, rfl, rfl, ?_, ?_⟩
  · show ((100 : ℚ) + 0 + 0 + 0 + 0) / (((1 : Nat) + 0 + 0 + 0 + 0 : Nat) : ℚ) * 100 = 10000
    norm_num
  · show ¬ ((100 : ℚ) + 0 + 0 + 0 + 0) / (((1 : Nat) + 0 + 0 + 0 + 0 : Nat) : ℚ) * 100 ≤ 100
    norm_num

/-- C6 (code bug): `validate_train_number` reads `self.train_numbers`,
an attribute the constructor never defines (it defines
`self.train_database`), so every well-formed five-digit train number —
including the directory member 20958 — raises `AttributeError` instead
of returning `(true, 100)` / `(true, 80)` / `(false, 50)`; only the
malformed-input paths return, with `(false, 30)` and `(false, 0)`. -/
theorem C6_train_number_raises :
    validate_train_number "20958" = .error train_numbers_attribute_error ∧
    validate_train_number "12345" = .error train_numbers_attribute_error ∧
    validate_train_number "123" = .ok (false, 30) ∧
    validate_train_number "" = .ok (false, 0) :=
  ⟨rfl, rfl, rfl, rfl⟩

def c8_payment : Payment :=
  { ticket_fare := some 450, irctc_fee := some 30, insurance := some 10,
    agent_fee := some 5, pg_charges := some (9 / 2), total := some 500 }

def c8_record : TicketRecord :=
  { pnr := some "1234567894", transaction_id := none, ticket_print_time := none,
    journeys := [], passengers := [], payment := c8_payment, success := false,
    page_number := 1, journey_metadata := none,
    extraction_metadata := .page 1 "enhanced_pdf_single_page" "t" ⟨1, 0, 6, 0⟩ }

/-- C8 (code bug): a parsed ticket record stores its payment dict under
the key `payment`, but `perform_cross_validations` looks up
`payment_details`; for a record whose payment data has numeric total 500
and numeric ticket fare (component sum 499.5, well within the 1.0
tolerance), no `payment_calculation` entry is reported at all.  The
tolerance logic itself behaves as the claim describes only when the
payment dict is supplied under the key the code reads: 500 against
499.5 passes (difference 0.5 < 1.0) and 500 against 495 fails
(difference 5). -/
theorem C8_payment_cross_validation_eval :
    float_truthy c8_record.payment.total = true ∧
    float_truthy c8_record.payment.ticket_fare = true ∧
    perform_cross_validations (to_ticket_dict c8_record) =
      .ok { date_time_consistency := none, passenger_count := none,
            payment_calculation := none } ∧
    (∃ e, perform_cross_validations
        { to_ticket_dict c8_record with payment_details := some c8_payment } = .ok e ∧
      e.payment_calculation.map CrossEntry.valid = some true) ∧
    (∃ e, perform_cross_validations
        { to_ticket_dict c8_record with
          payment_details := some { c8_payment with pg_charges := some 0 } } = .ok e ∧
      e.payment_calculation.map CrossEntry.valid = some false) := by
  refine ⟨rfl, rfl, rfl, ⟨_, rfl, ?_⟩, ⟨_, rfl, ?_⟩⟩
  · show some (decide (|(500 : ℚ) - (450 + 30 + 10 + 5 + 9 / 2)| < 1)) = some true
    simp only [Option.some.injEq, decide_eq_true_eq]
    rw [abs_lt]
    constructor <;> norm_num
  · show some (decide (|(500 : ℚ) - (450 + 30 + 10 + 5 + 0)| < 1)) = some false
    simp only [Option.some.injEq, decide_eq_false_iff_not]
    rw [abs_lt]
    norm_num

lemma dedup_journeys_not_in_seen (l : List Journey) :
    ∀ seen, ∀ j ∈ dedup_journeys l seen, create_journey_key j ∉ seen := by
  induction l with
  | nil => intro seen j hj; cases hj
  | cons j0 rest ih =>
    intro seen j hj
    unfold dedup_journeys at hj
    by_cases h0 : create_journey_key j0 ∈ seen
    · rw [if_pos (List.elem_iff.mpr h0)] at hj
      exact ih seen j hj
    · rw [if_neg (fun hc => h0 (List.elem_iff.mp hc))] at hj
      rcases List.mem_cons.mp hj with rfl | hj'
      · exact h0
      · have h := ih (create_journey_key j0 :: seen) j hj'
        exact fun hmem => h (List.mem_cons_of_mem _ hmem)

lemma dedup_journeys_pairwise (l : List Journey) :
    ∀ seen, List.Pairwise
      (fun a b => create_journey_key a ≠ create_journey_key b) (dedup_journeys l seen) := by
  induction l with
  | nil => intro seen; exact List.Pairwise.nil
  | cons j0 rest ih =>
    intro seen
    unfold dedup_journeys
    by_cases h0 : create_journey_key j0 ∈ seen
    · rw [if_pos (List.elem_iff.mpr h0)]
      exact ih seen
    · rw [if_neg (fun hc => h0 (List.elem_iff.mp hc))]
      refine List.Pairwise.cons ?_ (ih _)
      intro b hb hkey
      have h := dedup_journeys_not_in_seen rest (create_journey_key j0 :: seen) b hb
      exact h (hkey ▸ List.mem_cons_self _ _)

lemma dedup_journeys_sublist (l : List Journey) :
    ∀ seen, (dedup_journeys l seen).Sublist l := by
  induction l with
  | nil => intro seen; exact List.Sublist.slnil
  | cons j0 rest ih =>
    intro seen
    unfold dedup_journeys
    by_cases h0 : create_journey_key j0 ∈ seen
    · rw [if_pos (List.elem_iff.mpr h0)]
      exact (ih seen).cons j0
    · rw [if_neg (fun hc => h0 (List.elem_iff.mp hc))]
      exact (ih _).cons₂ j0

lemma dedup_journeys_covers (l : List Journey) :
    ∀ seen, ∀ c ∈ l, create_journey_key c ∈ seen ∨
      ∃ j ∈ dedup_journeys l seen, create_journey_key j = create_journey_key c := by
  induction l with
  | nil => intro seen c hc; cases hc
  | cons j0 rest ih =>
    intro seen c hc
    unfold dedup_journeys
    by_cases h0 : create_journey_key j0 ∈ seen
    · rw [if_pos (List.elem_iff.mpr h0)]
      rcases List.mem_cons.mp hc with rfl | hc'
      · exact Or.inl h0
      · exact ih seen c hc'
    · rw [if_neg (fun hc' => h0 (List.elem_iff.mp hc'))]
      rcases List.mem_cons.mp hc with rfl | hc'
      · exact Or.inr ⟨c, List.mem_cons_self _ _, rfl⟩
      · rcases ih (create_journey_key j0 :: seen) c hc' with hmem | ⟨j, hj, hkey⟩
        · rcases List.mem_cons.mp hmem with heq | hmem'
          · exact Or.inr ⟨j0, List.mem_cons_self _ _, heq.symm⟩
          · exact Or.inl hmem'
        · exact Or.inr ⟨j, List.mem_cons_of_mem _ hj, hkey⟩

lemma dedup_journeys_first_occurrence (l : List Journey) :
    ∀ seen, ∀ j ∈ dedup_journeys l seen, ∃ n, l.get? n = some j ∧
      ∀ m, m < n → ∀ q, l.get? m = some q →
        create_journey_key q ∈ seen ∨ create_journey_key q ≠ create_journey_key j := by
  induction l with
  | nil => intro seen j hj; cases hj
  | cons j0 rest ih =>
    intro seen j hj
    unfold dedup_journeys at hj
    by_cases h0 : create_journey_key j0 ∈ seen
    · rw [if_pos (List.elem_iff.mpr h0)] at hj
      obtain ⟨n, hget, hbefore⟩ := ih seen j hj
      refine ⟨n + 1, hget, ?_⟩
      intro m hm q hq
      cases m with
      | zero =>
        cases hq
        exact Or.inl h0
      | succ m' => exact hbefore m' (Nat.lt_of_succ_lt_succ hm) q hq
    · rw [if_neg (fun hc => h0 (List.elem_iff.mp hc))] at hj
      rcases List.mem_cons.mp hj with rfl | hj'
      · exact ⟨0, rfl, fun m hm => absurd hm (Nat.not_lt_zero m)⟩
      · obtain ⟨n, hget, hbefore⟩ := ih (create_journey_key j0 :: seen) j hj'
        have hkey_ne : create_journey_key j ≠ create_journey_key j0 := by
          intro heq
          exact dedup_journeys_not_in_seen rest (create_journey_key j0 :: seen) j hj'
            (heq ▸ List.mem_cons_self _ _)
        refine ⟨n + 1, hget, ?_⟩
        intro m hm q hq
        cases m with
        | zero =>
          cases hq
          exact Or.inr (fun heq => hkey_ne heq.symm)
        | succ m' =>
          rcases hbefore m' (Nat.lt_of_succ_lt_succ hm) q hq with hmem | hne
          · rcases List.mem_cons.mp hmem with heq | hmem'
            · exact Or.inr (fun hqj => hkey_ne (hqj.symm.trans heq))
            · exact Or.inl hmem'
          · exact Or.inr hne

lemma dedup_journeys_ne_nil (c : Journey) (rest : List Journey) :
    dedup_journeys (c :: rest) [] ≠ [] := by
  unfold dedup_journeys
  rw [if_neg (fun hc => Bool.noConfusion hc)]
  exact List.cons_ne_nil _ _

lemma extract_all_journeys_no_markers (lines : List String)
    (h : (page_starts lines).isEmpty = true) :
    extract_all_journeys lines =
      (match extract_journey_info lines with
       | some j => [j]
       | none => []) := by
  unfold extract_all_journeys
  simp only [h, if_true]
  cases hj : extract_journey_info lines with
  | some j => simp
  | none => simp

lemma extract_all_journeys_markers_no_candidates (lines : List String)
    (h : (page_starts lines).isEmpty = false) (hc : page_candidates lines = []) :
    extract_all_journeys lines =
      (match extract_journey_info lines with
       | some j => [j]
       | none => []) := by
  unfold extract_all_journeys
  simp only [h, Bool.false_eq_true, if_false, hc]
  cases hj : extract_journey_info lines <;> simp [dedup_journeys]

lemma extract_all_journeys_eq_of_markers (lines : List String)
    (h : (page_starts lines).isEmpty = false) (hne : page_candidates lines ≠ []) :
    extract_all_journeys lines = dedup_journeys (page_candidates lines) [] := by
  have hd : dedup_journeys (page_candidates lines) [] ≠ [] := by
    cases hcand : page_candidates lines with
    | nil => exact absurd hcand hne
    | cons c rest =>
      exact dedup_journeys_ne_nil c rest
  unfold extract_all_journeys
  simp only [h, Bool.false_eq_true, if_false]
  rw [if_neg (fun hie => hd (List.isEmpty_iff.mp hie))]

/-- C7: `extract_all_journeys` never returns two journeys with the same
identity key (`create_journey_key`): the output is pairwise key-distinct,
and when page markers are present and per-page candidates were gathered,
the output is a sublist of the candidates, covers every candidate's key,
and keeps the first occurrence of each key in page order. -/
theorem C7_journey_dedup (lines : List String) :
    List.Pairwise (fun a b => create_journey_key a ≠ create_journey_key b)
      (extract_all_journeys lines) ∧
    (page_starts lines ≠ [] → page_candidates lines ≠ [] →
      ((extract_all_journeys lines).Sublist (page_candidates lines) ∧
       (∀ c ∈ page_candidates lines, ∃ j ∈ extract_all_journeys lines,
          create_journey_key j = create_journey_key c) ∧
       (∀ j ∈ extract_all_journeys lines, ∃ n, (page_candidates lines).get? n = some j ∧
          ∀ m, m < n → ∀ q, (page_candidates lines).get? m = some q →
            create_journey_key q ≠ create_journey_key j))) := by
  constructor
  · by_cases hps : (page_starts lines).isEmpty = true
    · rw [extract_all_journeys_no_markers lines hps]
      cases extract_journey_info lines <;> simp
    · have hps' : (page_starts lines).isEmpty = false := by
        cases h : (page_starts lines).isEmpty
        · rfl
        · exact absurd h hps
      by_cases hc : page_candidates lines = []
      · rw [extract_all_journeys_markers_no_candidates lines hps' hc]
        cases extract_journey_info lines <;> simp
      · rw [extract_all_journeys_eq_of_markers lines hps' hc]
        exact dedup_journeys_pairwise _ []
  · intro h1 h2
    have hps' : (page_starts lines).isEmpty = false := by
      cases h : (page_starts lines).isEmpty
      · rfl
      · exact absurd (List.isEmpty_iff.mp h) h1
    rw [extract_all_journeys_eq_of_markers lines hps' h2]
    refine ⟨dedup_journeys_sublist _ [], ?_, ?_⟩
    · intro c hc
      rcases dedup_journeys_covers _ [] c hc with hmem | hex
      · cases hmem
      · exact hex
    · intro j hj
      obtain ⟨n, hget, hbefore⟩ := dedup_journeys_first_occurrence _ [] j hj
      refine ⟨n, hget, ?_⟩
      intro m hm q hq
      rcases hbefore m hm q hq with hmem | hne
      · cases hmem
      · exact hne

def c7_lines : List String :=
  ["--- PAGE 1 ---", "Train No./Name", "12345 -TEST EXP",
   "--- PAGE 2 ---", "Train No./Name", "12345 -TEST EXP"]

theorem C7_journey_dedup_witness :
    (extract_all_journeys c7_lines).Sublist (page_candidates c7_lines) ∧
    (∀ c ∈ page_candidates c7_lines, ∃ j ∈ extract_all_journeys c7_lines,
        create_journey_key j = create_journey_key c) ∧
    (∀ j ∈ extract_all_journeys c7_lines,
        ∃ n, (page_candidates c7_lines).get? n = some j ∧
          ∀ m, m < n → ∀ q, (page_candidates c7_lines).get? m = some q →
            create_journey_key q ≠ create_journey_key j) :=
  (C7_journey_dedup c7_lines).2 (by decide) (by decide)

/-- C9: `extract_from_pdf` never propagates a failure past its boundary:
a successful body result is returned as-is, and any error raised during
opening, parsing, validation or metadata generation is converted into a
structured failure result with `success = false` and an error field
carrying the failure's message. -/
theorem C9_orchestrator_catches (open_result : Except String PdfDoc) (validate : Bool)
    (pdf_path now : String) :
    (∀ r, extract_from_pdf_body open_result validate pdf_path now = .ok r →
      extract_from_pdf open_result validate pdf_path now = r) ∧
    (∀ e, extract_from_pdf_body open_result validate pdf_path now = .error e →
      extract_from_pdf open_result validate pdf_path now = .failure e ∧
      (extract_from_pdf open_result validate pdf_path now).success = false ∧
      (extract_from_pdf open_result validate pdf_path now).errorMsg = some e) := by
  constructor
  · intro r h
    unfold extract_from_pdf
    rw [h]
  · intro e h
    unfold extract_from_pdf
    rw [h]
    exact ⟨rfl, rfl, rfl⟩

theorem C9_orchestrator_catches_witness :
    extract_from_pdf (.error "cannot open document") true "ticket.pdf" "now" =
      .failure "cannot open document" ∧
    (extract_from_pdf (.error "cannot open document") true "ticket.pdf" "now").success =
      false ∧
    (extract_from_pdf (.error "cannot open document") true "ticket.pdf" "now").errorMsg =
      some "cannot open document" :=
  (C9_orchestrator_catches (.error "cannot open document") true "ticket.pdf" "now").2
    "cannot open document" rfl

lemma parse_journeys_length_le_one (lines : List String) (n : Nat) (now : String) :
    (parse_ticket_text_single_page lines n now).journeys.length ≤ 1 := by
  rw [parse_journeys_eq]
  unfold parse_journeys
  cases extract_journey_info lines <;> simp

lemma except_bind_ok {α β : Type} (a : α) (f : α → Except String β) :
    ((Except.ok a : Except String α) >>= f) = f a := rfl

lemma except_bind_err {α β : Type} (e : String) (f : α → Except String β) :
    ((Except.error e : Except String α) >>= f) = Except.error e := rfl

lemma except_pure_eq {α : Type} (a : α) : (pure a : Except String α) = Except.ok a := rfl

lemma except_throw_eq {α : Type} (e : String) :
    (throw e : Except String α) = Except.error e := rfl

/-- C10: every booking record produced by `extract_from_pdf` — the sole
record, a failure record, or an element of the multi-booking wrapper —
carries at most one journey segment, since each page is parsed by
`parse_ticket_text_single_page`, which appends at most the single result
of `extract_journey_info`; the multi-segment assembly path is never
reached from the orchestrator. -/
theorem C10_at_most_one_journey (open_result : Except String PdfDoc) (validate : Bool)
    (pdf_path now : String) :
    ((extract_from_pdf open_result validate pdf_path now).bookingRecords).all
      (fun r => r.journeys.length ≤ 1) = true := by
  rw [List.all_eq_true]
  intro r hr
  simp only [decide_eq_true_eq]
  unfold extract_from_pdf at hr
  cases hbody : extract_from_pdf_body open_result validate pdf_path now with
  | error e =>
    rw [hbody] at hr
    cases hr
  | ok res =>
    rw [hbody] at hr
    change r ∈ res.bookingRecords at hr
    unfold extract_from_pdf_body at hbody
    cases open_result with
    | error e =>
      rw [except_bind_err] at hbody
      cases hbody
    | ok doc =>
      rw [except_bind_ok] at hbody
      by_cases hmulti : doc.pages.length > 1
      · rw [if_pos hmulti] at hbody
        cases hall : (doc.pages.enum.map
            (fun p => parse_ticket_text_single_page p.2 (p.1 + 1) now)).filter
              (fun t => t.success) with
        | nil =>
          rw [hall] at hbody
          simp only [except_pure_eq] at hbody
          cases hbody
          cases hr
        | cons t ts =>
          have hmem : ∀ x ∈ (doc.pages.enum.map
              (fun p => parse_ticket_text_single_page p.2 (p.1 + 1) now)).filter
                (fun t => t.success), x.journeys.length ≤ 1 := by
            intro x hx
            obtain ⟨p, -, hp⟩ := List.mem_map.mp (List.mem_filter.mp hx).1
            rw [← hp]
            exact parse_journeys_length_le_one p.2 (p.1 + 1) now
          rw [hall] at hbody hmem
          cases ts with
          | nil =>
            simp only [except_pure_eq] at hbody
            cases hbody
            simp only [ExtractResult.bookingRecords] at hr
            obtain rfl := List.mem_singleton.mp hr
            exact hmem _ (List.mem_cons_self _ _)
          | cons t2 ts2 =>
            simp only [except_pure_eq] at hbody
            cases hbody
            simp only [ExtractResult.bookingRecords] at hr
            exact hmem r hr
      · rw [if_neg hmulti] at hbody
        cases hpages : doc.pages with
        | nil =>
          rw [hpages] at hbody
          simp only [except_throw_eq, except_bind_err] at hbody
          cases hbody
        | cons p0 prest =>
          rw [hpages] at hbody
          simp only [except_pure_eq, except_bind_ok] at hbody
          by_cases hv : validate = true
          · rw [if_pos hv] at hbody
            cases hval : validate_extracted_data
                (to_ticket_dict (parse_ticket_text_single_page p0 1 now)) with
            | error e =>
              rw [hval] at hbody
              simp only [except_bind_err, except_bind_ok, except_pure_eq] at hbody
              cases hbody
            | ok vd =>
              rw [hval] at hbody
              simp only [except_bind_ok, except_pure_eq] at hbody
              cases hbody
              simp only [ExtractResult.bookingRecords] at hr
              obtain rfl := List.mem_singleton.mp hr
              exact parse_journeys_length_le_one p0 1 now
          · rw [if_neg hv] at hbody
            cases hbody
            simp only [ExtractResult.bookingRecords] at hr
            obtain rfl := List.mem_singleton.mp hr
            exact parse_journeys_length_le_one p0 1 now
